import Mathlib

/-!
# TimeMoto → Personio attendance bridge: verification of the reconciliation engine

Shallow embedding of the attendance session reconciliation engine:

* time/zone helpers from `src/timemoto.ts` (`berlinDayEndUtcMillis`, `toBerlinISO`,
  `zonedLocalToUtcDate`, `getOffsetMinutes`);
* the session store from `src/session.ts` (the variant whose `setOpenSession`
  writes the record and the due index together, and whose `getOpenSession`
  returns null on a JSON parse failure);
* the webhook handler `handleAttendance` (the converged variant with the
  `markEventOnce` / `markPunchOnce` gates, the double-in close at
  `min(prevStart + 1h, now)`, the next-day split and the shadow-period
  recovery paths);
* the auto-close sweep `runAutoClose` from `src/cron.ts`;
* the earlier `processor.ts` variant of `handleOut`, which carries the
  `session:last:` based late-out-after-autoclose recovery (namespace `V1`).

Machine integers are modelled as `Nat` milliseconds since the Unix epoch
(all instants handled by the system are far from 0 and far below any
overflow-relevant bound, and JS `number` arithmetic on these values is exact).
Redis key/value state is modelled as association lists; redis `SET` replaces
the binding for a key, `ZADD` upserts a member's score, `LPUSH`+`LTRIM`
prepend and truncate.  Remote Personio calls are modelled as updates to a
`periods` map inside the same state; `getEmployeeIdByEmail` is modelled as an
environment-supplied resolution function.  All awaited I/O is sequential in
the source, so the handler is a pure state-transition function.
-/

namespace TMX

/-! ## Civil calendar arithmetic

The source converts between UTC instants and Europe/Berlin wall-clock via
`Intl.DateTimeFormat` (`partsInTimeZone`) and `Date.UTC`
(`zonedLocalToUtcDate`).  We embed the proleptic Gregorian calendar with the
standard days-from-civil / civil-from-days algorithms, restricted to years
≥ 1970 so that everything lives in `Nat`. -/

/-- A wall-clock (or UTC) date-time split into components, seconds precision,
as produced by the source's `partsInTimeZone`. -/
structure Civil where
  y : Nat
  m : Nat
  d : Nat
  h : Nat
  mi : Nat
  s : Nat
  deriving DecidableEq, Repr

/-- Day number since 1970-01-01 of a Gregorian date (valid for dates from
1970 on, where the result is nonnegative). -/
def daysFromCivil (y m d : Nat) : Nat :=
  let yAdj := if m ≤ 2 then y - 1 else y
  let era := yAdj / 400
  let yoe := yAdj % 400
  let mp := if 2 < m then m - 3 else m + 9
  let doy := (153 * mp + 2) / 5 + (d - 1)
  let doe := yoe * 365 + yoe / 4 - yoe / 100 + doy
  era * 146097 + doe - 719468

/-- Gregorian date of a day number since 1970-01-01. -/
def civilFromDays (z : Nat) : Nat × Nat × Nat :=
  let z2 := z + 719468
  let era := z2 / 146097
  let doe := z2 % 146097
  let yoe := (doe - doe / 1460 + doe / 36524 - doe / 146096) / 365
  let y := yoe + era * 400
  let doy := doe - (365 * yoe + yoe / 4 - yoe / 100)
  let mp := (5 * doy + 2) / 153
  let d := doy - (153 * mp + 2) / 5 + 1
  let m := if mp < 10 then mp + 3 else mp - 9
  (if m ≤ 2 then y + 1 else y, m, d)

/-- Milliseconds per day. -/
def msPerDay : Nat := 86400000

/-- Split a UTC epoch-milliseconds value into date-time components
(sub-second part dropped, as the source formats whole seconds). -/
def civilOfMs (ms : Nat) : Civil :=
  let z := ms / msPerDay
  let tod := ms % msPerDay
  let ymd := civilFromDays z
  { y := ymd.1, m := ymd.2.1, d := ymd.2.2
    h := tod / 3600000, mi := tod % 3600000 / 60000, s := tod % 60000 / 1000 }

/-- `Date.UTC` on components: epoch milliseconds of a UTC date-time. -/
def msOfCivil (c : Civil) : Nat :=
  daysFromCivil c.y c.m c.d * msPerDay + c.h * 3600000 + c.mi * 60000 + c.s * 1000

/-- Day of week of a day number (0 = Sunday; 1970-01-01 was a Thursday). -/
def dayOfWeek (z : Nat) : Nat := (z + 4) % 7

/-- Day number of the last Sunday of a 31-day month. -/
def lastSundayZ (y month : Nat) : Nat :=
  let z31 := daysFromCivil y month 31
  z31 - dayOfWeek z31

/-- UTC offset of Europe/Berlin in minutes at a UTC instant: CEST (+120)
between the last Sundays of March and October at 01:00 UTC, CET (+60)
otherwise (the EU rule, in force for every instant this system handles).
This is the value the source's `getOffsetMinutes(date, "Europe/Berlin")`
computes via `Intl` (its sub-second rounding never changes the result,
because the discrepancy is below half a minute). -/
def berlinOffsetMin (ms : Nat) : Nat :=
  let y := (civilFromDays (ms / msPerDay)).1
  let springMs := lastSundayZ y 3 * msPerDay + 3600000
  let fallMs := lastSundayZ y 10 * msPerDay + 3600000
  if springMs ≤ ms ∧ ms < fallMs then 120 else 60

/-- The source's `partsInTimeZone(date, "Europe/Berlin")`: Berlin wall-clock
components of a UTC instant. -/
def partsBerlin (ms : Nat) : Civil :=
  civilOfMs (ms + berlinOffsetMin ms * 60000)

/-- The source's `zonedLocalToUtcDate(y, m, d, h, mi, s, "Europe/Berlin")`:
initial guess treats the local time as UTC, then two refinement iterations
with the offset at the current guess. -/
def zonedLocalToUtcMs (y m d h mi s : Nat) : Nat :=
  let base := msOfCivil { y, m, d, h, mi, s }
  let u1 := base - berlinOffsetMin base * 60000
  let u2 := base - berlinOffsetMin u1 * 60000
  u2

/-- `berlinDayEndUtcMillis`: the UTC instant of 23:59:00 Berlin wall-clock
on the local calendar day containing the given instant. -/
def berlinDayEndUtcMillis (ms : Nat) : Nat :=
  let p := partsBerlin ms
  zonedLocalToUtcMs p.y p.m p.d 23 59 0

/-- The value of the source's `toBerlinISO`: an ISO-8601 string such as
`2026-02-02T17:06:00+01:00`, modelled as its fixed-width components (two
strings are equal iff these components are equal, all fields being
zero-padded to fixed width for the dates the system handles). -/
structure LocalISO where
  y : Nat
  m : Nat
  d : Nat
  h : Nat
  mi : Nat
  s : Nat
  offMin : Nat
  deriving DecidableEq, Repr

/-- `toBerlinISO(dateUtc)`. -/
def toBerlinISO (ms : Nat) : LocalISO :=
  let p := partsBerlin ms
  { y := p.y, m := p.m, d := p.d, h := p.h, mi := p.mi, s := p.s
    offMin := berlinOffsetMin ms }

/-- `slice(0, 10)` of the ISO string: its local calendar day. -/
def LocalISO.dayKey (x : LocalISO) : Nat × Nat × Nat := (x.y, x.m, x.d)

/-- The UTC instant an ISO string denotes (`new Date(iso).getTime()`). -/
def LocalISO.utcMs (x : LocalISO) : Nat :=
  msOfCivil { y := x.y, m := x.m, d := x.d, h := x.h, mi := x.mi, s := x.s }
    - x.offMin * 60000

/-! ## Data model and durable store

Redis state, restricted to the keys the engine touches.  An association list
models each keyspace; `SET` replaces the binding (`upsert`), `DEL`/`ZREM`
remove it.  A stored open-session value is a raw string parsed on read
(`JSON.parse` inside try/catch); we model the raw value as a `RawSession` —
`.parsed` for a string that parses to a session record, `.corrupt` for one
that does not — since the source's observable behaviour depends only on
which of the two it is. -/

/-- Clocking direction of an attendance event. -/
inductive ClockingType where
  | inDir
  | outDir
  deriving DecidableEq, Repr

/-- `OpenSession` as stored under `session:open:<email>`. -/
structure OpenSession where
  email : String
  startUtcMs : Nat
  startBerlinISO : LocalISO
  autoCloseAtUtcMs : Nat
  personioPeriodId : String
  openedEventId : String
  updatedAt : String
  deriving DecidableEq, Repr

/-- A history line pushed to the global `session:history` list.  The source
object's `end` field is called `stop` here (`end` is reserved in Lean); the
`ts` wall-clock field is not modelled. -/
structure HistoryEntry where
  email : String
  start : LocalISO
  stop : LocalISO
  reason : String
  periodId : String
  deriving DecidableEq, Repr

/-- An anomaly line pushed to `anomalies:list` (the free-form `details`
payload and the `ts` wall-clock field are not modelled). -/
structure Anomaly where
  type : String
  email : Option String
  eventId : Option String
  deriving DecidableEq, Repr

/-- A remote Personio attendance period, as far as the engine observes it:
created with a start (open-ended), end patched later.  The source object's
end field is called `stop` here. -/
structure Period where
  employeeId : String
  start : LocalISO
  stop : Option LocalISO
  deriving DecidableEq, Repr

/-- The raw string stored under `session:open:<email>`, abstracted by
whether `JSON.parse` yields a session record or throws. -/
inductive RawSession where
  | parsed (s : OpenSession)
  | corrupt (raw : String)
  deriving DecidableEq, Repr

/-- Remove every binding for a key from an association list. -/
def removeKey (l : List (String × α)) (k : String) : List (String × α) :=
  l.filter (fun e => e.1 ≠ k)

/-- The durable state the engine reads and writes. -/
structure Store where
  /-- `evt:<id>` idempotency marks (`markEventOnce`, TTL not modelled). -/
  evtSeen : List String
  /-- `punch:<email>:<type>:<stamp>` marks (`markPunchOnce`). -/
  punchSeen : List (String × ClockingType × Nat)
  /-- `session:open:<email>` raw records (`open` is reserved in Lean). -/
  openSessions : List (String × RawSession)
  /-- the `session:autoclose` sorted set: member = email, score = deadline. -/
  dueIndex : List (String × Nat)
  /-- the global `session:history` list, newest first. -/
  history : List HistoryEntry
  /-- the `anomalies:list` list, newest first. -/
  anomalies : List Anomaly
  /-- remote Personio periods by id. -/
  periods : List (String × Period)
  /-- fresh-id counter standing in for ids Personio mints on create. -/
  nextPeriodId : Nat
  deriving DecidableEq, Repr

/-- The empty store. -/
def Store.empty : Store :=
  { evtSeen := [], punchSeen := [], openSessions := [], dueIndex := []
    history := [], anomalies := [], periods := [], nextPeriodId := 0 }

/-- Configuration and collaborators of one handler invocation:
`SHADOW_MODE`, the Personio identity resolution (`getEmployeeIdByEmail`,
modelled as a pure lookup; `none` covers both the not-found and the
thrown-error outcome the variants use), and the wall-clock string used for
`updatedAt` fields. -/
structure Env where
  SHADOW_MODE : Bool
  resolveEmployee : String → Option String
  nowIso : String

/-- `recordAnomaly` / `pushAnomaly`: `LPUSH` then `LTRIM 0 499`. -/
def recordAnomaly (st : Store) (a : Anomaly) : Store :=
  { st with anomalies := (a :: st.anomalies).take 500 }

/-- `pushHistory`: `LPUSH` then `LTRIM 0 1999`. -/
def pushHistory (st : Store) (e : HistoryEntry) : Store :=
  { st with history := (e :: st.history).take 2000 }

/-- `getOpenSession`: read the raw value; absent or unparsable gives null. -/
def getOpenSession (st : Store) (email : String) : Option OpenSession :=
  match List.lookup email st.openSessions with
  | some (RawSession.parsed s) => some s
  | _ => none

/-- `setOpenSession`: write the record and upsert the due-index entry for
that identity (score = `autoCloseAtUtcMs`). -/
def setOpenSession (st : Store) (s : OpenSession) : Store :=
  { st with
    openSessions := (s.email, RawSession.parsed s) :: removeKey st.openSessions s.email
    dueIndex := (s.email, s.autoCloseAtUtcMs) :: removeKey st.dueIndex s.email }

/-- `clearOpenSession`: delete the record and the due-index entry. -/
def clearOpenSession (st : Store) (email : String) : Store :=
  { st with
    openSessions := removeKey st.openSessions email
    dueIndex := removeKey st.dueIndex email }

/-- `listDueAutoClose`: `ZRANGEBYSCORE session:autoclose 0 now LIMIT 0 limit`
— members with score ≤ now, ascending by score, at most `limit` of them.
(Redis breaks score ties lexicographically; the stable sort here keeps ties
in insertion order instead, which no claim depends on.) -/
def listDueAutoClose (st : Store) (now : Nat) (limit : Nat) : List String :=
  ((st.dueIndex.filter (fun e => e.2 ≤ now)).insertionSort
      (fun a b => a.2 ≤ b.2)).take limit |>.map (fun e => e.1)

/-- `createAttendanceOpenEnded`: create a remote period anchored at `start`
and return its fresh id. -/
def createAttendanceOpenEnded (st : Store) (employeeId : String)
    (start : LocalISO) : String × Store :=
  let id := "p" ++ toString st.nextPeriodId
  (id,
   { st with
     periods := (id, { employeeId, start, stop := none }) :: st.periods
     nextPeriodId := st.nextPeriodId + 1 })

/-- Patch the end of the period with this id in a period map. -/
def patchPeriodList (l : List (String × Period)) (id : String)
    (stop : LocalISO) : List (String × Period) :=
  l.map (fun e => if e.1 = id then (e.1, { e.2 with stop := some stop }) else e)

/-- `patchAttendanceEnd`: set the end of the remote period with this id
(modelled as always succeeding; the source's failure branches are I/O
errors out of scope of the claims). -/
def patchAttendanceEnd (st : Store) (id : String) (stop : LocalISO) : Store :=
  { st with periods := patchPeriodList st.periods id stop }

/-- `isShadowPeriodId`: `!id || id === "shadow-period" || id.startsWith("shadow")`. -/
def isShadowPeriodId (id : String) : Bool :=
  id = "" || id = "shadow-period" || id.startsWith "shadow"

/-- `clampAutoClose` / `autoCloseUtcMs` / `computeAutoClose`:
`min(start + 12h, berlinDayEndUtcMillis(start))`. -/
def clampAutoClose (utcStart : Nat) : Nat :=
  min (utcStart + 12 * 3600 * 1000) (berlinDayEndUtcMillis utcStart)

/-! ## The reconciliation engine (`handleAttendance`)

The inbound webhook body, after the transport layer.  Modelled from the
spec: the source's `getClockingType`, `extractEmailFromEvent` and
`extractStampUtcMillis` (whose definitions are not among the included
files) each yield a value or nothing — "the event must yield a recognized
clock direction (`In`/`Out`), a resolvable identity, and a resolvable
timestamp" — so the event carries each as an optional field.  A JS-falsy
timestamp value (`0`) counts as missing, matching `if (!stampUtc)`. -/
structure TMEvent where
  id : String
  clockingType : Option ClockingType
  email : Option String
  stampUtc : Option Nat
  deriving DecidableEq, Repr

/-- Does `if (!stampUtc)` fire for this extracted timestamp?  (JS treats
both an absent value and `0` as falsy.) -/
def stampMissing (o : Option Nat) : Prop :=
  o = none ∨ o = some 0

instance (o : Option Nat) : Decidable (stampMissing o) := by
  unfold stampMissing
  infer_instance

/-- The `NoSession` leg of the `In` transition: resolve the employee (an
anomaly and stop when that fails), create the remote period (a `"shadow-period"`
sentinel in shadow mode), compute the deadline, `setOpenSession`. -/
def openNewSession (env : Env) (st : Store) (eventId email : String)
    (stampUtc : Nat) (stampBerlinISO : LocalISO) : Store :=
  match env.resolveEmployee email with
  | none =>
      recordAnomaly st
        { type := "PERSONIO_EMPLOYEE_NOT_FOUND", email := some email
          eventId := some eventId }
  | some employeeId =>
      let pr :=
        if !env.SHADOW_MODE then createAttendanceOpenEnded st employeeId stampBerlinISO
        else ("shadow-period", st)
      let sess : OpenSession :=
        { email, startUtcMs := stampUtc, startBerlinISO := stampBerlinISO
          autoCloseAtUtcMs := clampAutoClose stampUtc
          personioPeriodId := pr.1, openedEventId := eventId
          updatedAt := env.nowIso }
      setOpenSession pr.2 sess

/-- The `In` transition: on a double-in, close the prior session at
`min(prevStart + 1h, now)` (anomaly, optional remote patch, history entry
with reason `DOUBLE_IN_CLOSE`, `clearOpenSession`), then open the new
session exactly as in the no-session case. -/
def handleInEvent (env : Env) (st : Store) (eventId email : String)
    (stampUtc : Nat) (stampBerlinISO : LocalISO) : Store :=
  match getOpenSession st email with
  | some existing =>
      let closeUtc := min (existing.startUtcMs + 60 * 60 * 1000) stampUtc
      let closeBerlin := toBerlinISO closeUtc
      let stA := recordAnomaly st
        { type := "DOUBLE_IN", email := some email, eventId := some eventId }
      let stB :=
        if !env.SHADOW_MODE then
          if !isShadowPeriodId existing.personioPeriodId then
            patchAttendanceEnd stA existing.personioPeriodId closeBerlin
          else
            recordAnomaly stA
              { type := "SHADOW_SESSION_DROPPED_ON_DOUBLE_IN"
                email := some email, eventId := some eventId }
        else stA
      let stC := pushHistory stB
        { email, start := existing.startBerlinISO, stop := closeBerlin
          reason := "DOUBLE_IN_CLOSE", periodId := existing.personioPeriodId }
      let stD := clearOpenSession stC email
      openNewSession env stD eventId email stampUtc stampBerlinISO
  | none => openNewSession env st eventId email stampUtc stampBerlinISO

/-- The `Out` transition: no open session raises `OUT_WITHOUT_IN`; a live-mode
session holding a shadow sentinel takes the recovery path; an out on a
different local calendar day splits the session; otherwise the normal
same-day close. -/
def handleOutEvent (env : Env) (st : Store) (eventId email : String)
    (_stampUtc : Nat) (stampBerlinISO : LocalISO) : Store :=
  match getOpenSession st email with
  | none =>
      recordAnomaly st
        { type := "OUT_WITHOUT_IN", email := some email, eventId := some eventId }
  | some openS =>
      if !env.SHADOW_MODE && isShadowPeriodId openS.personioPeriodId then
        let stA := recordAnomaly st
          { type := "SHADOW_PERIOD_RECOVER", email := some email
            eventId := some eventId }
        match env.resolveEmployee email with
        | none =>
            let stB := recordAnomaly stA
              { type := "PERSONIO_EMPLOYEE_NOT_FOUND", email := some email
                eventId := some eventId }
            clearOpenSession stB email
        | some employeeId =>
            let c := createAttendanceOpenEnded stA employeeId openS.startBerlinISO
            let stB := patchAttendanceEnd c.2 c.1 stampBerlinISO
            let stC := pushHistory stB
              { email, start := openS.startBerlinISO, stop := stampBerlinISO
                reason := "RECOVER_FROM_SHADOW", periodId := c.1 }
            clearOpenSession stC email
      else
        if stampBerlinISO.dayKey ≠ openS.startBerlinISO.dayKey then
          let firstEndUtc := min openS.autoCloseAtUtcMs (berlinDayEndUtcMillis openS.startUtcMs)
          let firstEndBerlin := toBerlinISO firstEndUtc
          let stA :=
            if !env.SHADOW_MODE then
              if !isShadowPeriodId openS.personioPeriodId then
                patchAttendanceEnd st openS.personioPeriodId firstEndBerlin
              else st
            else st
          let stB := pushHistory stA
            { email, start := openS.startBerlinISO, stop := firstEndBerlin
              reason := "OUT_NEXT_DAY_SPLIT_DAY1", periodId := openS.personioPeriodId }
          let stC := clearOpenSession stB email
          let stD := recordAnomaly stC
            { type := "OUT_NEXT_DAY_SPLIT", email := some email
              eventId := some eventId }
          match env.resolveEmployee email with
          | none => stD
          | some employeeId =>
              let midnightBerlin : LocalISO :=
                { y := stampBerlinISO.y, m := stampBerlinISO.m, d := stampBerlinISO.d
                  h := 0, mi := 0, s := 0, offMin := 60 }
              if !env.SHADOW_MODE then
                let c := createAttendanceOpenEnded stD employeeId midnightBerlin
                let stE := patchAttendanceEnd c.2 c.1 stampBerlinISO
                pushHistory stE
                  { email, start := midnightBerlin, stop := stampBerlinISO
                    reason := "OUT_NEXT_DAY_SPLIT_DAY2", periodId := c.1 }
              else stD
        else
          let stA :=
            if !env.SHADOW_MODE then
              if isShadowPeriodId openS.personioPeriodId then
                recordAnomaly st
                  { type := "SHADOW_PERIOD_CANNOT_PATCH", email := some email
                    eventId := some eventId }
              else patchAttendanceEnd st openS.personioPeriodId stampBerlinISO
            else st
          let stB := pushHistory stA
            { email, start := openS.startBerlinISO, stop := stampBerlinISO
              reason := "OUT", periodId := openS.personioPeriodId }
          clearOpenSession stB email

/-- `handleAttendance`: missing event id (anomaly), `markEventOnce` gate,
validation gates (direction, identity, timestamp), `markPunchOnce` gate,
then the `In` / `Out` transition. -/
def handleAttendance (env : Env) (st : Store) (body : TMEvent) : Store :=
  if body.id = "" then
    recordAnomaly st { type := "EVENT_ID_MISSING", email := none, eventId := none }
  else if body.id ∈ st.evtSeen then
    st
  else
    let st1 := { st with evtSeen := body.id :: st.evtSeen }
    match body.clockingType with
    | none =>
        recordAnomaly st1
          { type := "CLOCKING_TYPE_MISSING", email := none, eventId := some body.id }
    | some ct =>
        match body.email with
        | none =>
            recordAnomaly st1
              { type := "EMAIL_MISSING", email := none, eventId := some body.id }
        | some email =>
            match body.stampUtc with
            | none =>
                recordAnomaly st1
                  { type := "STAMP_TIME_MISSING", email := some email
                    eventId := some body.id }
            | some stampUtc =>
                if stampUtc = 0 then
                  recordAnomaly st1
                    { type := "STAMP_TIME_MISSING", email := some email
                      eventId := some body.id }
                else
                  if (email, ct, stampUtc) ∈ st1.punchSeen then
                    st1
                  else
                    let st2 :=
                      { st1 with punchSeen := (email, ct, stampUtc) :: st1.punchSeen }
                    let stampBerlinISO := toBerlinISO stampUtc
                    match ct with
                    | ClockingType.inDir =>
                        handleInEvent env st2 body.id email stampUtc stampBerlinISO
                    | ClockingType.outDir =>
                        handleOutEvent env st2 body.id email stampUtc stampBerlinISO


/-! ## The auto-close sweep (`runAutoClose`) -/

/-- One iteration of the sweep loop: a vanished session only clears the
index entry; a present one is closed at its stored deadline (remote patch
in live mode, history reason `AUTO_CLOSE`, `clearOpenSession`) and counted. -/
def autoCloseStep (env : Env) (acc : Store × Nat) (email : String) : Store × Nat :=
  match getOpenSession acc.1 email with
  | none => (clearOpenSession acc.1 email, acc.2)
  | some openS =>
      let endBerlin := toBerlinISO openS.autoCloseAtUtcMs
      let stA :=
        if !env.SHADOW_MODE then
          patchAttendanceEnd acc.1 openS.personioPeriodId endBerlin
        else acc.1
      let stB := pushHistory stA
        { email, start := openS.startBerlinISO, stop := endBerlin
          reason := "AUTO_CLOSE", periodId := openS.personioPeriodId }
      (clearOpenSession stB email, acc.2 + 1)

/-- `runAutoClose`: fetch up to 50 due identities and run the loop.
The source takes `now = Date.now()`; it is a parameter here. -/
def runAutoClose (env : Env) (st : Store) (now : Nat) : Store × Nat :=
  (listDueAutoClose st now 50).foldl (autoCloseStep env) (st, 0)

/-! ## The earlier `processor.ts` variant (`V1`)

This variant keeps a `session:last:<email>` record of the most recently
closed interval and, on an `Out` with no open session, attempts the
late-out-after-autoclose recovery against it. -/

namespace V1

/-- `OpenSession` of `processor.ts`. -/
structure OpenSession where
  email : String
  employeeId : String
  startUtcMs : Nat
  startBerlinISO : LocalISO
  autoCloseAtUtcMs : Nat
  autoCloseAtBerlinISO : LocalISO
  personioPeriodId : String
  openedEventId : String
  openedAtIso : String
  deriving DecidableEq, Repr

/-- `LastSession` stored under `session:last:<email>` (7-day TTL not
modelled); `endReason` is one of `"OUT" | "AUTO_CLOSE" | "DOUBLE_IN_CLOSE"`. -/
structure LastSession where
  email : String
  employeeId : String
  startUtcMs : Nat
  endUtcMs : Nat
  startBerlinISO : LocalISO
  endBerlinISO : LocalISO
  personioPeriodId : String
  endReason : String
  closedEventId : Option String
  closedAtIso : String
  deriving DecidableEq, Repr

/-- The redis state this variant's `handleOut` touches. -/
structure Store where
  openSessions : List (String × OpenSession)
  last : List (String × LastSession)
  anomalies : List Anomaly
  dueIndex : List (String × Nat)
  periods : List (String × Period)
  deriving DecidableEq, Repr

/-- `anomaly`/`pushAnomaly`: `LPUSH anomalies:list` then `LTRIM 0 499`. -/
def pushAnomaly (st : Store) (a : Anomaly) : Store :=
  { st with anomalies := (a :: st.anomalies).take 500 }

/-- `saveLast`: `SET session:last:<email>`. -/
def saveLast (st : Store) (l : LastSession) : Store :=
  { st with last := (l.email, l) :: removeKey st.last l.email }

/-- `clearOpen`: `DEL session:open:<email>` and `ZREM session:autoclose`. -/
def clearOpen (st : Store) (email : String) : Store :=
  { st with
    openSessions := removeKey st.openSessions email
    dueIndex := removeKey st.dueIndex email }

/-- `clamp(n, min, max) = Math.max(min, Math.min(max, n))`. -/
def clamp (n lo hi : Nat) : Nat := max lo (min hi n)

/-- `handleOut` of `processor.ts`: with no open session, try the
late-out-after-autoclose recovery against `session:last:<email>` (patch the
remote end and rewrite the last record with reason `"OUT"`), else raise
`OUT_WITHOUT_IN`; with an open session, close it at the out instant clamped
into `[start + 1min, autoCloseAt]`. -/
def handleOut (env : Env) (st : Store) (eventId email : String)
    (outUtcMs : Nat) : Store :=
  match List.lookup email st.openSessions with
  | none =>
      match List.lookup email st.last with
      | some lastS =>
          if lastS.endReason = "AUTO_CLOSE" then
            if lastS.endUtcMs < outUtcMs ∧ outUtcMs ≤ lastS.startUtcMs + 12 * 3600 * 1000 then
              let endBerlin := toBerlinISO outUtcMs
              let stA :=
                if !env.SHADOW_MODE then
                  { st with periods := patchPeriodList st.periods lastS.personioPeriodId endBerlin }
                else st
              saveLast stA
                { lastS with
                  endUtcMs := outUtcMs, endBerlinISO := endBerlin
                  endReason := "OUT", closedEventId := some eventId
                  closedAtIso := env.nowIso }
            else
              pushAnomaly st
                { type := "OUT_WITHOUT_IN", email := some email, eventId := some eventId }
          else
            pushAnomaly st
              { type := "OUT_WITHOUT_IN", email := some email, eventId := some eventId }
      | none =>
          pushAnomaly st
            { type := "OUT_WITHOUT_IN", email := some email, eventId := some eventId }
  | some openS =>
      let outMs := max outUtcMs (openS.startUtcMs + 60000)
      let clampedMs := clamp outMs (openS.startUtcMs + 60000) openS.autoCloseAtUtcMs
      let endBerlin := toBerlinISO clampedMs
      let stA :=
        if !env.SHADOW_MODE then
          { st with periods := patchPeriodList st.periods openS.personioPeriodId endBerlin }
        else st
      let stB := saveLast stA
        { email, employeeId := openS.employeeId
          startUtcMs := openS.startUtcMs, endUtcMs := clampedMs
          startBerlinISO := openS.startBerlinISO, endBerlinISO := endBerlin
          personioPeriodId := openS.personioPeriodId, endReason := "OUT"
          closedEventId := some eventId, closedAtIso := env.nowIso }
      clearOpen stB email

end V1

/-! ## Basic lemmas -/

@[simp] theorem evtSeen_recordAnomaly (st : Store) (a : Anomaly) :
    (recordAnomaly st a).evtSeen = st.evtSeen := rfl

@[simp] theorem evtSeen_pushHistory (st : Store) (e : HistoryEntry) :
    (pushHistory st e).evtSeen = st.evtSeen := rfl

@[simp] theorem evtSeen_patchAttendanceEnd (st : Store) (id : String) (x : LocalISO) :
    (patchAttendanceEnd st id x).evtSeen = st.evtSeen := rfl

@[simp] theorem evtSeen_setOpenSession (st : Store) (s : OpenSession) :
    (setOpenSession st s).evtSeen = st.evtSeen := rfl

@[simp] theorem evtSeen_clearOpenSession (st : Store) (email : String) :
    (clearOpenSession st email).evtSeen = st.evtSeen := rfl

@[simp] theorem evtSeen_createAttendanceOpenEnded (st : Store) (e : String) (x : LocalISO) :
    (createAttendanceOpenEnded st e x).2.evtSeen = st.evtSeen := rfl

@[simp] theorem getOpenSession_recordAnomaly (st : Store) (a : Anomaly) (email : String) :
    getOpenSession (recordAnomaly st a) email = getOpenSession st email := rfl

@[simp] theorem getOpenSession_pushHistory (st : Store) (e : HistoryEntry) (email : String) :
    getOpenSession (pushHistory st e) email = getOpenSession st email := rfl

@[simp] theorem getOpenSession_patchAttendanceEnd (st : Store) (id : String) (x : LocalISO)
    (email : String) :
    getOpenSession (patchAttendanceEnd st id x) email = getOpenSession st email := rfl

@[simp] theorem getOpenSession_createAttendanceOpenEnded (st : Store) (e : String)
    (x : LocalISO) (email : String) :
    getOpenSession (createAttendanceOpenEnded st e x).2 email = getOpenSession st email := rfl

theorem evtSeen_openNewSession (env : Env) (st : Store) (eventId email : String)
    (t : Nat) (iso : LocalISO) :
    (openNewSession env st eventId email t iso).evtSeen = st.evtSeen := by
  unfold openNewSession
  cases env.resolveEmployee email <;> cases env.SHADOW_MODE <;> simp

theorem evtSeen_handleInEvent (env : Env) (st : Store) (eventId email : String)
    (t : Nat) (iso : LocalISO) :
    (handleInEvent env st eventId email t iso).evtSeen = st.evtSeen := by
  unfold handleInEvent
  cases getOpenSession st email <;>
    simp [evtSeen_openNewSession] <;>
    cases env.SHADOW_MODE <;> cases isShadowPeriodId ‹OpenSession›.personioPeriodId <;>
    simp [evtSeen_openNewSession]

theorem evtSeen_handleOutEvent (env : Env) (st : Store) (eventId email : String)
    (t : Nat) (iso : LocalISO) :
    (handleOutEvent env st eventId email t iso).evtSeen = st.evtSeen := by
  unfold handleOutEvent
  cases h : getOpenSession st email with
  | none => rfl
  | some openS =>
      cases env.resolveEmployee email <;> cases env.SHADOW_MODE <;>
        cases isShadowPeriodId openS.personioPeriodId <;>
        repeat' split <;> simp_all

/-- A fresh, fully valid `In` event reaches the `In` transition with both
gates marked. -/
theorem handleAttendance_fresh_in (env : Env) (st : Store) (body : TMEvent)
    (email : String) (t : Nat)
    (hid : body.id ≠ "") (hseen : body.id ∉ st.evtSeen)
    (hct : body.clockingType = some ClockingType.inDir)
    (hem : body.email = some email)
    (hts : body.stampUtc = some t) (ht0 : t ≠ 0)
    (hp : (email, ClockingType.inDir, t) ∉ st.punchSeen) :
    handleAttendance env st body =
      handleInEvent env
        { st with evtSeen := body.id :: st.evtSeen
                  punchSeen := (email, ClockingType.inDir, t) :: st.punchSeen }
        body.id email t (toBerlinISO t) := by
  unfold handleAttendance
  rw [if_neg hid, if_neg hseen, hct, hem, hts]
  simp only []
  rw [if_neg ht0, if_neg hp]

/-- A fresh, fully valid `Out` event reaches the `Out` transition with both
gates marked. -/
theorem handleAttendance_fresh_out (env : Env) (st : Store) (body : TMEvent)
    (email : String) (t : Nat)
    (hid : body.id ≠ "") (hseen : body.id ∉ st.evtSeen)
    (hct : body.clockingType = some ClockingType.outDir)
    (hem : body.email = some email)
    (hts : body.stampUtc = some t) (ht0 : t ≠ 0)
    (hp : (email, ClockingType.outDir, t) ∉ st.punchSeen) :
    handleAttendance env st body =
      handleOutEvent env
        { st with evtSeen := body.id :: st.evtSeen
                  punchSeen := (email, ClockingType.outDir, t) :: st.punchSeen }
        body.id email t (toBerlinISO t) := by
  unfold handleAttendance
  rw [if_neg hid, if_neg hseen, hct, hem, hts]
  simp only []
  rw [if_neg ht0, if_neg hp]

@[simp] theorem getOpenSession_markGates (st : Store) (a : List String)
    (b : List (String × ClockingType × Nat)) (email : String) :
    getOpenSession { st with evtSeen := a, punchSeen := b } email =
      getOpenSession st email := rfl

theorem getOpenSession_setOpenSession_self (st : Store) (s : OpenSession) :
    getOpenSession (setOpenSession st s) s.email = some s := by
  simp [getOpenSession, setOpenSession, List.lookup]

/-! ## Claim C2 — the auto-close deadline -/

/-- A live-mode environment resolving `a@x.com` to employee `E1`. -/
def envLive : Env :=
  { SHADOW_MODE := false
    resolveEmployee := fun e => if e = "a@x.com" then some "E1" else none
    nowIso := "2026-02-02T08:00:01.000Z" }

/-- C2 (amended): for every fresh valid `In` event opening a session at
instant `t`, the stored `autoCloseAtUtcMs` equals
`min(t + 12h, berlinDayEndUtcMillis t)`; consequently it is at most
`t + 12h`, at most the end of the local day, and strictly greater than `t`
whenever `t` lies strictly before 23:59:00 local time of its own local day
(for a start inside the final local minute the stored deadline does not
exceed the start). -/
theorem c2_deadline_formula (env : Env) (st : Store) (body : TMEvent)
    (email empId : String) (t : Nat)
    (hid : body.id ≠ "") (hseen : body.id ∉ st.evtSeen)
    (hct : body.clockingType = some ClockingType.inDir)
    (hem : body.email = some email)
    (hts : body.stampUtc = some t) (ht0 : t ≠ 0)
    (hp : (email, ClockingType.inDir, t) ∉ st.punchSeen)
    (hopen : getOpenSession st email = none)
    (hres : env.resolveEmployee email = some empId) :
    ∃ s, getOpenSession (handleAttendance env st body) email = some s ∧
      s.startUtcMs = t ∧
      s.autoCloseAtUtcMs = min (t + 12 * 3600 * 1000) (berlinDayEndUtcMillis t) ∧
      s.autoCloseAtUtcMs ≤ t + 12 * 3600 * 1000 ∧
      s.autoCloseAtUtcMs ≤ berlinDayEndUtcMillis t ∧
      (t < berlinDayEndUtcMillis t → t < s.autoCloseAtUtcMs) := by
  rw [handleAttendance_fresh_in env st body email t hid hseen hct hem hts ht0 hp]
  unfold handleInEvent
  have hopen2 : getOpenSession
      { st with evtSeen := body.id :: st.evtSeen
                punchSeen := (email, ClockingType.inDir, t) :: st.punchSeen } email = none := hopen
  rw [hopen2]
  unfold openNewSession
  rw [hres]
  refine ⟨_, getOpenSession_setOpenSession_self _ _, rfl, rfl, ?_, ?_, ?_⟩
  · exact min_le_left _ _
  · exact min_le_right _ _
  · intro h
    exact lt_min (by omega) h

/-- Witness for C2 at `In` 2026-02-02T08:00:00Z: deadline min(20:00Z, 22:59Z). -/
theorem c2_deadline_formula_witness :
    ∃ s, getOpenSession
        (handleAttendance envLive Store.empty
          { id := "e1", clockingType := some ClockingType.inDir
            email := some "a@x.com", stampUtc := some 1770019200000 }) "a@x.com" = some s ∧
      s.startUtcMs = 1770019200000 ∧
      s.autoCloseAtUtcMs =
        min (1770019200000 + 12 * 3600 * 1000) (berlinDayEndUtcMillis 1770019200000) ∧
      s.autoCloseAtUtcMs ≤ 1770019200000 + 12 * 3600 * 1000 ∧
      s.autoCloseAtUtcMs ≤ berlinDayEndUtcMillis 1770019200000 ∧
      (1770019200000 < berlinDayEndUtcMillis 1770019200000 →
        1770019200000 < s.autoCloseAtUtcMs) :=
  c2_deadline_formula envLive Store.empty _ "a@x.com" "E1" 1770019200000
    (by decide) (by simp [Store.empty]) rfl rfl rfl (by decide)
    (by simp [Store.empty]) rfl (by decide)

/-- C2 counterexample: an `In` at 2026-02-02T23:59:30 Berlin (22:59:30Z)
stores a deadline of 23:59:00 Berlin — strictly *before* the start, refuting
"autoCloseDeadline is strictly greater than startInstant". -/
theorem c2_counterexample :
    getOpenSession
        (handleAttendance envLive Store.empty
          { id := "eL", clockingType := some ClockingType.inDir
            email := some "a@x.com", stampUtc := some 1770073170000 }) "a@x.com" =
      some { email := "a@x.com", startUtcMs := 1770073170000
             startBerlinISO := { y := 2026, m := 2, d := 2, h := 23, mi := 59, s := 30, offMin := 60 }
             autoCloseAtUtcMs := 1770073140000
             personioPeriodId := "p0", openedEventId := "eL"
             updatedAt := "2026-02-02T08:00:01.000Z" } ∧
    1770073140000 < 1770073170000 := by
  constructor
  · decide
  · decide

/-! ## Association-list lemmas -/

theorem lookup_cons_self (k : String) (v : α) (l : List (String × α)) :
    List.lookup k ((k, v) :: l) = some v := by
  simp [List.lookup]

theorem lookup_cons_ne (k k2 : String) (v : α) (l : List (String × α)) (h : k ≠ k2) :
    List.lookup k ((k2, v) :: l) = List.lookup k l := by
  simp [List.lookup, beq_false_of_ne h]

theorem removeKey_cons (a : String) (v : α) (l : List (String × α)) (k : String) :
    removeKey ((a, v) :: l) k =
      if a = k then removeKey l k else (a, v) :: removeKey l k := by
  by_cases h : a = k <;> simp [removeKey, List.filter_cons, h]

theorem lookup_removeKey_self (k : String) (l : List (String × α)) :
    List.lookup k (removeKey l k) = none := by
  induction l with
  | nil => rfl
  | cons e rest ih =>
      obtain ⟨a, v⟩ := e
      rw [removeKey_cons]
      by_cases h : a = k
      · rw [if_pos h]; exact ih
      · rw [if_neg h, lookup_cons_ne k a v _ (fun hk => h hk.symm)]; exact ih

theorem lookup_removeKey_ne (k k2 : String) (l : List (String × α)) (h : k ≠ k2) :
    List.lookup k (removeKey l k2) = List.lookup k l := by
  induction l with
  | nil => rfl
  | cons e rest ih =>
      obtain ⟨a, v⟩ := e
      rw [removeKey_cons]
      by_cases ha : a = k2
      · have hka : k ≠ a := by rw [ha]; exact h
        rw [if_pos ha, lookup_cons_ne k a v rest hka]; exact ih
      · by_cases hk : k = a
        · subst hk
          rw [if_neg ha, lookup_cons_self, lookup_cons_self]
        · rw [if_neg ha, lookup_cons_ne k a v _ hk, lookup_cons_ne k a v rest hk]
          exact ih

theorem patchPeriodList_cons (a : String) (v : Period) (l : List (String × Period))
    (id : String) (x : LocalISO) :
    patchPeriodList ((a, v) :: l) id x =
      (if a = id then (a, { v with stop := some x }) else (a, v)) ::
        patchPeriodList l id x := by
  by_cases h : a = id <;> simp [patchPeriodList, h]

theorem lookup_patchPeriodList_self (l : List (String × Period)) (id : String)
    (x : LocalISO) :
    List.lookup id (patchPeriodList l id x) =
      (List.lookup id l).map (fun p => { p with stop := some x }) := by
  induction l with
  | nil => rfl
  | cons e rest ih =>
      obtain ⟨a, v⟩ := e
      rw [patchPeriodList_cons]
      by_cases ha : a = id
      · subst ha
        rw [if_pos rfl, lookup_cons_self, lookup_cons_self]
        rfl
      · have hne : id ≠ a := fun hk => ha hk.symm
        rw [if_neg ha, lookup_cons_ne id a v _ hne, lookup_cons_ne id a v rest hne]
        exact ih

theorem lookup_patchPeriodList_ne (l : List (String × Period)) (id k : String)
    (x : LocalISO) (h : k ≠ id) :
    List.lookup k (patchPeriodList l id x) = List.lookup k l := by
  induction l with
  | nil => rfl
  | cons e rest ih =>
      obtain ⟨a, v⟩ := e
      rw [patchPeriodList_cons]
      by_cases ha : a = id
      · subst ha
        rw [if_pos rfl, lookup_cons_ne k a _ _ h, lookup_cons_ne k a v rest h]
        exact ih
      · by_cases hk : k = a
        · subst hk
          rw [if_neg ha, lookup_cons_self, lookup_cons_self]
        · rw [if_neg ha, lookup_cons_ne k a v _ hk, lookup_cons_ne k a v rest hk]
          exact ih

/-! ## Field-preservation lemmas for the store operations -/

@[simp] theorem history_recordAnomaly (st : Store) (a : Anomaly) :
    (recordAnomaly st a).history = st.history := rfl

@[simp] theorem history_setOpenSession (st : Store) (s : OpenSession) :
    (setOpenSession st s).history = st.history := rfl

@[simp] theorem history_clearOpenSession (st : Store) (email : String) :
    (clearOpenSession st email).history = st.history := rfl

@[simp] theorem history_patchAttendanceEnd (st : Store) (id : String) (x : LocalISO) :
    (patchAttendanceEnd st id x).history = st.history := rfl

@[simp] theorem history_createAttendanceOpenEnded (st : Store) (e : String) (x : LocalISO) :
    (createAttendanceOpenEnded st e x).2.history = st.history := rfl

@[simp] theorem history_pushHistory (st : Store) (e : HistoryEntry) :
    (pushHistory st e).history = (e :: st.history).take 2000 := rfl

@[simp] theorem anomalies_pushHistory (st : Store) (e : HistoryEntry) :
    (pushHistory st e).anomalies = st.anomalies := rfl

@[simp] theorem anomalies_setOpenSession (st : Store) (s : OpenSession) :
    (setOpenSession st s).anomalies = st.anomalies := rfl

@[simp] theorem anomalies_clearOpenSession (st : Store) (email : String) :
    (clearOpenSession st email).anomalies = st.anomalies := rfl

@[simp] theorem anomalies_patchAttendanceEnd (st : Store) (id : String) (x : LocalISO) :
    (patchAttendanceEnd st id x).anomalies = st.anomalies := rfl

@[simp] theorem anomalies_createAttendanceOpenEnded (st : Store) (e : String) (x : LocalISO) :
    (createAttendanceOpenEnded st e x).2.anomalies = st.anomalies := rfl

@[simp] theorem anomalies_recordAnomaly (st : Store) (a : Anomaly) :
    (recordAnomaly st a).anomalies = (a :: st.anomalies).take 500 := rfl

@[simp] theorem dueIndex_recordAnomaly (st : Store) (a : Anomaly) :
    (recordAnomaly st a).dueIndex = st.dueIndex := rfl

@[simp] theorem dueIndex_pushHistory (st : Store) (e : HistoryEntry) :
    (pushHistory st e).dueIndex = st.dueIndex := rfl

@[simp] theorem dueIndex_patchAttendanceEnd (st : Store) (id : String) (x : LocalISO) :
    (patchAttendanceEnd st id x).dueIndex = st.dueIndex := rfl

@[simp] theorem dueIndex_createAttendanceOpenEnded (st : Store) (e : String) (x : LocalISO) :
    (createAttendanceOpenEnded st e x).2.dueIndex = st.dueIndex := rfl

@[simp] theorem dueIndex_clearOpenSession (st : Store) (email : String) :
    (clearOpenSession st email).dueIndex = removeKey st.dueIndex email := rfl

@[simp] theorem openSessions_recordAnomaly (st : Store) (a : Anomaly) :
    (recordAnomaly st a).openSessions = st.openSessions := rfl

@[simp] theorem openSessions_pushHistory (st : Store) (e : HistoryEntry) :
    (pushHistory st e).openSessions = st.openSessions := rfl

@[simp] theorem openSessions_patchAttendanceEnd (st : Store) (id : String) (x : LocalISO) :
    (patchAttendanceEnd st id x).openSessions = st.openSessions := rfl

@[simp] theorem openSessions_createAttendanceOpenEnded (st : Store) (e : String) (x : LocalISO) :
    (createAttendanceOpenEnded st e x).2.openSessions = st.openSessions := rfl

@[simp] theorem periods_recordAnomaly (st : Store) (a : Anomaly) :
    (recordAnomaly st a).periods = st.periods := rfl

@[simp] theorem periods_pushHistory (st : Store) (e : HistoryEntry) :
    (pushHistory st e).periods = st.periods := rfl

@[simp] theorem periods_setOpenSession (st : Store) (s : OpenSession) :
    (setOpenSession st s).periods = st.periods := rfl

@[simp] theorem periods_clearOpenSession (st : Store) (email : String) :
    (clearOpenSession st email).periods = st.periods := rfl

theorem getOpenSession_clearOpenSession_self (st : Store) (email : String) :
    getOpenSession (clearOpenSession st email) email = none := by
  simp [getOpenSession, clearOpenSession, lookup_removeKey_self]

theorem getOpenSession_clearOpenSession_ne (st : Store) (e email : String)
    (h : email ≠ e) :
    getOpenSession (clearOpenSession st e) email = getOpenSession st email := by
  simp [getOpenSession, clearOpenSession, lookup_removeKey_ne email e _ h]

/-! ## Claim C10 — a corrupt stored session reads as no session -/

/-- C10: when the stored open-session value for an identity fails to parse,
`getOpenSession` returns null, so the engine treats the corrupted record
exactly as `NoSession`: a subsequent fresh `In` opens a fresh session
without touching history or anomalies (no double-in path), and a subsequent
fresh `Out` records an `OUT_WITHOUT_IN` anomaly and stops. -/
theorem c10_corrupt_session_reads_as_none (env : Env) (st : Store)
    (email empId junk : String) (bI bO : TMEvent) (tI tO : Nat)
    (hraw : List.lookup email st.openSessions = some (RawSession.corrupt junk))
    (hIid : bI.id ≠ "") (hIseen : bI.id ∉ st.evtSeen)
    (hIct : bI.clockingType = some ClockingType.inDir)
    (hIem : bI.email = some email)
    (hIts : bI.stampUtc = some tI) (hIt0 : tI ≠ 0)
    (hIp : (email, ClockingType.inDir, tI) ∉ st.punchSeen)
    (hres : env.resolveEmployee email = some empId)
    (hOid : bO.id ≠ "") (hOseen : bO.id ∉ st.evtSeen)
    (hOct : bO.clockingType = some ClockingType.outDir)
    (hOem : bO.email = some email)
    (hOts : bO.stampUtc = some tO) (hOt0 : tO ≠ 0)
    (hOp : (email, ClockingType.outDir, tO) ∉ st.punchSeen) :
    getOpenSession st email = none ∧
    (∃ s, getOpenSession (handleAttendance env st bI) email = some s ∧
       s.startUtcMs = tI ∧ s.openedEventId = bI.id) ∧
    (handleAttendance env st bI).history = st.history ∧
    (handleAttendance env st bI).anomalies = st.anomalies ∧
    (handleAttendance env st bO).anomalies =
      (({ type := "OUT_WITHOUT_IN", email := some email, eventId := some bO.id } : Anomaly)
        :: st.anomalies).take 500 ∧
    (handleAttendance env st bO).history = st.history ∧
    (handleAttendance env st bO).openSessions = st.openSessions := by
  have hopen : getOpenSession st email = none := by
    simp [getOpenSession, hraw]
  have hIn := handleAttendance_fresh_in env st bI email tI hIid hIseen hIct hIem hIts hIt0 hIp
  have hOut := handleAttendance_fresh_out env st bO email tO hOid hOseen hOct hOem hOts hOt0 hOp
  refine ⟨hopen, ?_, ?_, ?_, ?_, ?_, ?_⟩
  · rw [hIn]
    unfold handleInEvent
    rw [show getOpenSession
        { st with evtSeen := bI.id :: st.evtSeen
                  punchSeen := (email, ClockingType.inDir, tI) :: st.punchSeen } email = none
      from hopen]
    unfold openNewSession
    rw [hres]
    exact ⟨_, getOpenSession_setOpenSession_self _ _, rfl, rfl⟩
  · rw [hIn]
    unfold handleInEvent
    rw [show getOpenSession
        { st with evtSeen := bI.id :: st.evtSeen
                  punchSeen := (email, ClockingType.inDir, tI) :: st.punchSeen } email = none
      from hopen]
    unfold openNewSession
    rw [hres]
    cases h : env.SHADOW_MODE <;> simp [h]
  · rw [hIn]
    unfold handleInEvent
    rw [show getOpenSession
        { st with evtSeen := bI.id :: st.evtSeen
                  punchSeen := (email, ClockingType.inDir, tI) :: st.punchSeen } email = none
      from hopen]
    unfold openNewSession
    rw [hres]
    cases h : env.SHADOW_MODE <;> simp [h]
  · rw [hOut]
    unfold handleOutEvent
    rw [show getOpenSession
        { st with evtSeen := bO.id :: st.evtSeen
                  punchSeen := (email, ClockingType.outDir, tO) :: st.punchSeen } email = none
      from hopen]
    rfl
  · rw [hOut]
    unfold handleOutEvent
    rw [show getOpenSession
        { st with evtSeen := bO.id :: st.evtSeen
                  punchSeen := (email, ClockingType.outDir, tO) :: st.punchSeen } email = none
      from hopen]
    rfl
  · rw [hOut]
    unfold handleOutEvent
    rw [show getOpenSession
        { st with evtSeen := bO.id :: st.evtSeen
                  punchSeen := (email, ClockingType.outDir, tO) :: st.punchSeen } email = none
      from hopen]
    rfl

/-- Witness for C10: store holding an unparsable value for `a@x.com`. -/
theorem c10_corrupt_session_reads_as_none_witness :
    getOpenSession
        { Store.empty with
          openSessions := [("a@x.com", RawSession.corrupt "not json")] } "a@x.com" = none ∧
    (∃ s, getOpenSession
        (handleAttendance envLive
          { Store.empty with
            openSessions := [("a@x.com", RawSession.corrupt "not json")] }
          { id := "i1", clockingType := some ClockingType.inDir
            email := some "a@x.com", stampUtc := some 1770019200000 }) "a@x.com" = some s ∧
       s.startUtcMs = 1770019200000 ∧ s.openedEventId = "i1") ∧
    (handleAttendance envLive
        { Store.empty with
          openSessions := [("a@x.com", RawSession.corrupt "not json")] }
        { id := "i1", clockingType := some ClockingType.inDir
          email := some "a@x.com", stampUtc := some 1770019200000 }).history = [] ∧
    (handleAttendance envLive
        { Store.empty with
          openSessions := [("a@x.com", RawSession.corrupt "not json")] }
        { id := "i1", clockingType := some ClockingType.inDir
          email := some "a@x.com", stampUtc := some 1770019200000 }).anomalies = [] ∧
    (handleAttendance envLive
        { Store.empty with
          openSessions := [("a@x.com", RawSession.corrupt "not json")] }
        { id := "o1", clockingType := some ClockingType.outDir
          email := some "a@x.com", stampUtc := some 1770049800000 }).anomalies =
      (({ type := "OUT_WITHOUT_IN", email := some "a@x.com", eventId := some "o1" } : Anomaly)
        :: ([] : List Anomaly)).take 500 ∧
    (handleAttendance envLive
        { Store.empty with
          openSessions := [("a@x.com", RawSession.corrupt "not json")] }
        { id := "o1", clockingType := some ClockingType.outDir
          email := some "a@x.com", stampUtc := some 1770049800000 }).history = [] ∧
    (handleAttendance envLive
        { Store.empty with
          openSessions := [("a@x.com", RawSession.corrupt "not json")] }
        { id := "o1", clockingType := some ClockingType.outDir
          email := some "a@x.com", stampUtc := some 1770049800000 }).openSessions =
      [("a@x.com", RawSession.corrupt "not json")] :=
  c10_corrupt_session_reads_as_none envLive
    { Store.empty with openSessions := [("a@x.com", RawSession.corrupt "not json")] }
    "a@x.com" "E1" "not json" _ _ 1770019200000 1770049800000
    (by rw [lookup_cons_self])
    (by decide) (by simp [Store.empty]) rfl rfl rfl (by decide) (by simp [Store.empty]) rfl
    (by decide) (by simp [Store.empty]) rfl rfl rfl (by decide) (by simp [Store.empty])

/-! ## Claim C9 — the validation gate -/

/-- The specific anomaly the validation gate records for an event that does
not yield a direction, an identity and a timestamp, in the source's checking
order (direction first, then identity, then timestamp). -/
def expectedValidationAnomaly (body : TMEvent) : Option Anomaly :=
  match body.clockingType with
  | none => some { type := "CLOCKING_TYPE_MISSING", email := none, eventId := some body.id }
  | some _ =>
      match body.email with
      | none => some { type := "EMAIL_MISSING", email := none, eventId := some body.id }
      | some email =>
          if stampMissing body.stampUtc then
            some { type := "STAMP_TIME_MISSING", email := some email, eventId := some body.id }
          else none

/-- C9: a fresh event that fails validation (unrecognized direction,
unresolvable identity, or unresolvable timestamp) makes the engine record
exactly the specific anomaly for the first failing check and stop: the
result is the store with only the idempotency mark and that anomaly added —
no session, index, history, punch-mark or remote-period change, and in
particular a timestamp-less event is never processed at a substitute time. -/
theorem c9_validation_gate (env : Env) (st : Store) (body : TMEvent) (a : Anomaly)
    (hid : body.id ≠ "") (hseen : body.id ∉ st.evtSeen)
    (hval : expectedValidationAnomaly body = some a) :
    handleAttendance env st body =
      recordAnomaly { st with evtSeen := body.id :: st.evtSeen } a := by
  unfold handleAttendance
  rw [if_neg hid, if_neg hseen]
  unfold expectedValidationAnomaly at hval
  cases hct : body.clockingType with
  | none =>
      rw [hct] at hval
      simp only [Option.some.injEq] at hval
      rw [← hval]
  | some ct =>
      rw [hct] at hval
      cases hem : body.email with
      | none =>
          rw [hem] at hval
          simp only [Option.some.injEq] at hval
          rw [← hval]
      | some email =>
          rw [hem] at hval
          cases hts : body.stampUtc with
          | none =>
              rw [hts] at hval
              simp only [] at hval
              rw [if_pos (show stampMissing (none : Option Nat) from Or.inl rfl)] at hval
              simp only [Option.some.injEq] at hval
              rw [← hval]
          | some t =>
              rw [hts] at hval
              simp only [] at hval
              by_cases ht : t = 0
              · subst ht
                rw [if_pos (show stampMissing (some 0) from Or.inr rfl)] at hval
                simp only [Option.some.injEq] at hval
                rw [← hval]
                simp
              · rw [if_neg (show ¬ stampMissing (some t) from by
                    simp [stampMissing, ht])] at hval
                exact absurd hval (by simp)

/-- Witness for C9: an event with no recognizable clocking direction. -/
theorem c9_validation_gate_witness :
    handleAttendance envLive Store.empty
        { id := "v1", clockingType := none, email := some "a@x.com"
          stampUtc := some 1770019200000 } =
      recordAnomaly { Store.empty with evtSeen := ["v1"] }
        { type := "CLOCKING_TYPE_MISSING", email := none, eventId := some "v1" } :=
  c9_validation_gate envLive Store.empty
    { id := "v1", clockingType := none, email := some "a@x.com"
      stampUtc := some 1770019200000 }
    { type := "CLOCKING_TYPE_MISSING", email := none, eventId := some "v1" }
    (by decide) (by simp [Store.empty]) rfl

/-! ## Claim C1 — the idempotency gate -/

theorem evtSeen_handleAttendance (env : Env) (st : Store) (body : TMEvent)
    (hid : body.id ≠ "") (hseen : body.id ∉ st.evtSeen) :
    (handleAttendance env st body).evtSeen = body.id :: st.evtSeen := by
  unfold handleAttendance
  rw [if_neg hid, if_neg hseen]
  cases body.clockingType with
  | none => rfl
  | some ct =>
      cases body.email with
      | none => rfl
      | some email =>
          cases body.stampUtc with
          | none => rfl
          | some t =>
              by_cases ht : t = 0
              · simp only [if_pos ht]
                rfl
              · simp only [if_neg ht]
                by_cases hp : (email, ct, t) ∈ st.punchSeen
                · simp only [if_pos hp]
                · simp only [if_neg hp]
                  cases ct
                  · exact evtSeen_handleInEvent _ _ _ _ _ _
                  · exact evtSeen_handleOutEvent _ _ _ _ _ _

/-- C1 (amended): for every inbound event with a *non-empty* id, the
idempotency gate runs before any other observable action — if the id was
already claimed the handler is a complete no-op, after any processing the id
is claimed, and reprocessing the same event is the identity on the resulting
state (exactly one observable state change however often it is replayed, no
new anomalies or history entries).  (An event with an *empty* id is rejected
before the gate and records an `EVENT_ID_MISSING` anomaly on every
delivery.) -/
theorem c1_idempotency_gate (env : Env) (st : Store) (body : TMEvent)
    (hid : body.id ≠ "") :
    (body.id ∈ st.evtSeen → handleAttendance env st body = st) ∧
    body.id ∈ (handleAttendance env st body).evtSeen ∧
    handleAttendance env (handleAttendance env st body) body =
      handleAttendance env st body := by
  have hdup : ∀ st2 : Store, body.id ∈ st2.evtSeen →
      handleAttendance env st2 body = st2 := by
    intro st2 h2
    unfold handleAttendance
    rw [if_neg hid, if_pos h2]
  by_cases hseen : body.id ∈ st.evtSeen
  · have h1 := hdup st hseen
    exact ⟨fun _ => h1, by rw [h1]; exact hseen, by rw [h1, h1]⟩
  · have hmem : body.id ∈ (handleAttendance env st body).evtSeen := by
      rw [evtSeen_handleAttendance env st body hid hseen]
      exact List.mem_cons_self _ _
    exact ⟨fun h => absurd h hseen, hmem, hdup _ hmem⟩

/-- Witness for C1: a duplicate delivery of event `e1` changes nothing. -/
theorem c1_idempotency_gate_witness :
    (("e1" : String) ∈ ({ Store.empty with evtSeen := ["e1"] } : Store).evtSeen →
      handleAttendance envLive { Store.empty with evtSeen := ["e1"] }
        { id := "e1", clockingType := some ClockingType.inDir
          email := some "a@x.com", stampUtc := some 1770019200000 } =
        { Store.empty with evtSeen := ["e1"] }) ∧
    ("e1" : String) ∈ (handleAttendance envLive { Store.empty with evtSeen := ["e1"] }
        { id := "e1", clockingType := some ClockingType.inDir
          email := some "a@x.com", stampUtc := some 1770019200000 }).evtSeen ∧
    handleAttendance envLive
        (handleAttendance envLive { Store.empty with evtSeen := ["e1"] }
          { id := "e1", clockingType := some ClockingType.inDir
            email := some "a@x.com", stampUtc := some 1770019200000 })
        { id := "e1", clockingType := some ClockingType.inDir
          email := some "a@x.com", stampUtc := some 1770019200000 } =
      handleAttendance envLive { Store.empty with evtSeen := ["e1"] }
        { id := "e1", clockingType := some ClockingType.inDir
          email := some "a@x.com", stampUtc := some 1770019200000 } :=
  c1_idempotency_gate envLive { Store.empty with evtSeen := ["e1"] }
    { id := "e1", clockingType := some ClockingType.inDir
      email := some "a@x.com", stampUtc := some 1770019200000 } (by decide)

/-- C1 counterexample: an event with an empty id bypasses the gate — each
replay records a fresh `EVENT_ID_MISSING` anomaly, so replaying is not a
no-op and produces new anomalies, refuting the claim for *every* inbound
event. -/
theorem c1_counterexample :
    (handleAttendance envLive Store.empty
        { id := "", clockingType := some ClockingType.inDir
          email := some "a@x.com", stampUtc := some 1770019200000 }).anomalies.length = 1 ∧
    (handleAttendance envLive
        (handleAttendance envLive Store.empty
          { id := "", clockingType := some ClockingType.inDir
            email := some "a@x.com", stampUtc := some 1770019200000 })
        { id := "", clockingType := some ClockingType.inDir
          email := some "a@x.com", stampUtc := some 1770019200000 }).anomalies.length = 2 := by
  constructor
  · rfl
  · rfl

/-! ## Claim C3 — double-in resolution -/

@[simp] theorem take500_cons (a : α) (l : List α) :
    (a :: l).take 500 = a :: l.take 499 := rfl

@[simp] theorem take2000_cons (a : α) (l : List α) :
    (a :: l).take 2000 = a :: l.take 1999 := rfl

theorem take1999_cons (a : α) (l : List α) :
    (a :: l).take 1999 = a :: l.take 1998 := rfl

/-- C3: a second `In` at `T1` while a session opened at `T0 < T1` is open
closes the prior session at `min(T0 + 1h, T1)` — never before `T0` and never
after `T1` — records a `DOUBLE_IN` anomaly, appends a `DOUBLE_IN_CLOSE`
history entry for the prior interval, and then opens a new session for `T1`
as in the no-session case (with the freshly computed deadline). -/
theorem c3_double_in (env : Env) (st : Store) (body : TMEvent)
    (email empId : String) (t : Nat) (ex : OpenSession)
    (hid : body.id ≠ "") (hseen : body.id ∉ st.evtSeen)
    (hct : body.clockingType = some ClockingType.inDir)
    (hem : body.email = some email)
    (hts : body.stampUtc = some t) (ht0 : t ≠ 0)
    (hp : (email, ClockingType.inDir, t) ∉ st.punchSeen)
    (hopen : getOpenSession st email = some ex)
    (hT : ex.startUtcMs < t)
    (hres : env.resolveEmployee email = some empId) :
    (ex.startUtcMs ≤ min (ex.startUtcMs + 60 * 60 * 1000) t ∧
      min (ex.startUtcMs + 60 * 60 * 1000) t ≤ t) ∧
    (handleAttendance env st body).history.head? =
      some { email, start := ex.startBerlinISO
             stop := toBerlinISO (min (ex.startUtcMs + 60 * 60 * 1000) t)
             reason := "DOUBLE_IN_CLOSE", periodId := ex.personioPeriodId } ∧
    ({ type := "DOUBLE_IN", email := some email, eventId := some body.id } : Anomaly) ∈
      (handleAttendance env st body).anomalies ∧
    (∃ s, getOpenSession (handleAttendance env st body) email = some s ∧
       s.startUtcMs = t ∧ s.autoCloseAtUtcMs = clampAutoClose t ∧
       s.openedEventId = body.id) := by
  rw [handleAttendance_fresh_in env st body email t hid hseen hct hem hts ht0 hp]
  unfold handleInEvent
  rw [show getOpenSession
      { st with evtSeen := body.id :: st.evtSeen
                punchSeen := (email, ClockingType.inDir, t) :: st.punchSeen } email = some ex
    from hopen]
  unfold openNewSession
  rw [hres]
  refine ⟨⟨le_min (by omega) (le_of_lt hT), min_le_right _ _⟩, ?_, ?_, ?_⟩
  · cases hSH : env.SHADOW_MODE <;>
      by_cases hsh : isShadowPeriodId ex.personioPeriodId <;>
        simp [hSH, hsh]
  · cases hSH : env.SHADOW_MODE <;>
      by_cases hsh : isShadowPeriodId ex.personioPeriodId <;>
        simp [hSH, hsh]
  · cases hSH : env.SHADOW_MODE <;>
      simp only [hSH, Bool.not_false, Bool.not_true, if_true, if_false] <;>
      exact ⟨_, getOpenSession_setOpenSession_self _ _, rfl, rfl, rfl⟩

/-- Witness for C3: `In` 08:00Z then `In` 09:30Z on 2026-02-02 for the same
identity; the prior session closes at 09:00Z (10:00 Berlin). -/
theorem c3_double_in_witness :
    ((1770019200000 : Nat) ≤ min (1770019200000 + 60 * 60 * 1000) 1770024600000 ∧
      min ((1770019200000 : Nat) + 60 * 60 * 1000) 1770024600000 ≤ 1770024600000) ∧
    (handleAttendance envLive
        (handleAttendance envLive Store.empty
          { id := "e1", clockingType := some ClockingType.inDir
            email := some "a@x.com", stampUtc := some 1770019200000 })
        { id := "e2", clockingType := some ClockingType.inDir
          email := some "a@x.com", stampUtc := some 1770024600000 }).history.head? =
      some { email := "a@x.com"
             start := { y := 2026, m := 2, d := 2, h := 9, mi := 0, s := 0, offMin := 60 }
             stop := toBerlinISO (min (1770019200000 + 60 * 60 * 1000) 1770024600000)
             reason := "DOUBLE_IN_CLOSE", periodId := "p0" } ∧
    ({ type := "DOUBLE_IN", email := some "a@x.com", eventId := some "e2" } : Anomaly) ∈
      (handleAttendance envLive
        (handleAttendance envLive Store.empty
          { id := "e1", clockingType := some ClockingType.inDir
            email := some "a@x.com", stampUtc := some 1770019200000 })
        { id := "e2", clockingType := some ClockingType.inDir
          email := some "a@x.com", stampUtc := some 1770024600000 }).anomalies ∧
    (∃ s, getOpenSession
        (handleAttendance envLive
          (handleAttendance envLive Store.empty
            { id := "e1", clockingType := some ClockingType.inDir
              email := some "a@x.com", stampUtc := some 1770019200000 })
          { id := "e2", clockingType := some ClockingType.inDir
            email := some "a@x.com", stampUtc := some 1770024600000 }) "a@x.com" = some s ∧
       s.startUtcMs = 1770024600000 ∧ s.autoCloseAtUtcMs = clampAutoClose 1770024600000 ∧
       s.openedEventId = "e2") :=
  c3_double_in envLive
    (handleAttendance envLive Store.empty
      { id := "e1", clockingType := some ClockingType.inDir
        email := some "a@x.com", stampUtc := some 1770019200000 })
    { id := "e2", clockingType := some ClockingType.inDir
      email := some "a@x.com", stampUtc := some 1770024600000 }
    "a@x.com" "E1" 1770024600000
    { email := "a@x.com", startUtcMs := 1770019200000
      startBerlinISO := { y := 2026, m := 2, d := 2, h := 9, mi := 0, s := 0, offMin := 60 }
      autoCloseAtUtcMs := 1770062400000, personioPeriodId := "p0"
      openedEventId := "e1", updatedAt := "2026-02-02T08:00:01.000Z" }
    (by decide) (by decide) rfl rfl rfl (by decide) (by decide)
    (by decide) (by decide) rfl

/-! ## Claim C5 — normal same-day close -/

/-- C5 (amended): a fresh `Out` on the same local calendar day as the open
session's start, processed live with a non-shadow remote period id, patches
that remote period's end to the `Out` instant, appends a `reason = OUT`
history entry for the session interval, clears the open session, and records
no anomaly.  (A live-mode session holding a shadow sentinel id instead takes
the recovery path, which does record an anomaly.) -/
theorem c5_same_day_out (env : Env) (st : Store) (body : TMEvent)
    (email : String) (t : Nat) (openS : OpenSession) (p : Period)
    (hid : body.id ≠ "") (hseen : body.id ∉ st.evtSeen)
    (hct : body.clockingType = some ClockingType.outDir)
    (hem : body.email = some email)
    (hts : body.stampUtc = some t) (ht0 : t ≠ 0)
    (hp : (email, ClockingType.outDir, t) ∉ st.punchSeen)
    (hopen : getOpenSession st email = some openS)
    (hlive : env.SHADOW_MODE = false)
    (hsh : isShadowPeriodId openS.personioPeriodId = false)
    (hday : (toBerlinISO t).dayKey = openS.startBerlinISO.dayKey)
    (hper : List.lookup openS.personioPeriodId st.periods = some p) :
    (handleAttendance env st body).history.head? =
      some { email, start := openS.startBerlinISO, stop := toBerlinISO t
             reason := "OUT", periodId := openS.personioPeriodId } ∧
    (handleAttendance env st body).anomalies = st.anomalies ∧
    getOpenSession (handleAttendance env st body) email = none ∧
    List.lookup openS.personioPeriodId (handleAttendance env st body).periods =
      some { p with stop := some (toBerlinISO t) } := by
  rw [handleAttendance_fresh_out env st body email t hid hseen hct hem hts ht0 hp]
  unfold handleOutEvent
  rw [show getOpenSession
      { st with evtSeen := body.id :: st.evtSeen
                punchSeen := (email, ClockingType.outDir, t) :: st.punchSeen } email = some openS
    from hopen]
  simp only [hlive, hsh, Bool.not_false, Bool.true_and, if_false, Bool.false_eq_true,
    hday, ne_eq, not_true_eq_false]
  refine ⟨by simp, by simp, getOpenSession_clearOpenSession_self _ _, ?_⟩
  simp only [periods_clearOpenSession, periods_pushHistory, patchAttendanceEnd,
    if_pos trivial]
  rw [lookup_patchPeriodList_self, hper]
  rfl

/-- Witness for C5, the normal-day scenario: `In` 08:00Z, `Out` 16:30Z on
2026-02-02 yields one `OUT` history entry 09:00→17:30 Berlin, no anomaly. -/
theorem c5_same_day_out_witness :
    (handleAttendance envLive
        (handleAttendance envLive Store.empty
          { id := "e1", clockingType := some ClockingType.inDir
            email := some "a@x.com", stampUtc := some 1770019200000 })
        { id := "e2", clockingType := some ClockingType.outDir
          email := some "a@x.com", stampUtc := some 1770049800000 }).history.head? =
      some { email := "a@x.com"
             start := { y := 2026, m := 2, d := 2, h := 9, mi := 0, s := 0, offMin := 60 }
             stop := toBerlinISO 1770049800000
             reason := "OUT", periodId := "p0" } ∧
    (handleAttendance envLive
        (handleAttendance envLive Store.empty
          { id := "e1", clockingType := some ClockingType.inDir
            email := some "a@x.com", stampUtc := some 1770019200000 })
        { id := "e2", clockingType := some ClockingType.outDir
          email := some "a@x.com", stampUtc := some 1770049800000 }).anomalies =
      (handleAttendance envLive Store.empty
          { id := "e1", clockingType := some ClockingType.inDir
            email := some "a@x.com", stampUtc := some 1770019200000 }).anomalies ∧
    getOpenSession
        (handleAttendance envLive
          (handleAttendance envLive Store.empty
            { id := "e1", clockingType := some ClockingType.inDir
              email := some "a@x.com", stampUtc := some 1770019200000 })
          { id := "e2", clockingType := some ClockingType.outDir
            email := some "a@x.com", stampUtc := some 1770049800000 }) "a@x.com" = none ∧
    List.lookup "p0"
        (handleAttendance envLive
          (handleAttendance envLive Store.empty
            { id := "e1", clockingType := some ClockingType.inDir
              email := some "a@x.com", stampUtc := some 1770019200000 })
          { id := "e2", clockingType := some ClockingType.outDir
            email := some "a@x.com", stampUtc := some 1770049800000 }).periods =
      some { employeeId := "E1"
             start := { y := 2026, m := 2, d := 2, h := 9, mi := 0, s := 0, offMin := 60 }
             stop := some (toBerlinISO 1770049800000) } :=
  c5_same_day_out envLive
    (handleAttendance envLive Store.empty
      { id := "e1", clockingType := some ClockingType.inDir
        email := some "a@x.com", stampUtc := some 1770019200000 })
    { id := "e2", clockingType := some ClockingType.outDir
      email := some "a@x.com", stampUtc := some 1770049800000 }
    "a@x.com" 1770049800000
    { email := "a@x.com", startUtcMs := 1770019200000
      startBerlinISO := { y := 2026, m := 2, d := 2, h := 9, mi := 0, s := 0, offMin := 60 }
      autoCloseAtUtcMs := 1770062400000, personioPeriodId := "p0"
      openedEventId := "e1", updatedAt := "2026-02-02T08:00:01.000Z" }
    { employeeId := "E1"
      start := { y := 2026, m := 2, d := 2, h := 9, mi := 0, s := 0, offMin := 60 }
      stop := none }
    (by decide) (by decide) rfl rfl rfl (by decide) (by decide)
    (by decide) rfl rfl (by decide) (by decide)

/-- C5 counterexample: a session created while shadow mode was on (period id
`shadow-period`) and closed by a same-local-day `Out` in live mode takes the
recovery path — an anomaly *is* recorded and the history reason is
`RECOVER_FROM_SHADOW`, not `OUT`, refuting the claim as universally stated. -/
theorem c5_counterexample :
    (handleAttendance envLive
        { Store.empty with
          openSessions :=
            [("a@x.com", RawSession.parsed
              { email := "a@x.com", startUtcMs := 1770019200000
                startBerlinISO := { y := 2026, m := 2, d := 2, h := 9, mi := 0, s := 0, offMin := 60 }
                autoCloseAtUtcMs := 1770062400000, personioPeriodId := "shadow-period"
                openedEventId := "e1", updatedAt := "x" })]
          dueIndex := [("a@x.com", 1770062400000)] }
        { id := "o9", clockingType := some ClockingType.outDir
          email := some "a@x.com", stampUtc := some 1770049800000 }).anomalies =
      [{ type := "SHADOW_PERIOD_RECOVER", email := some "a@x.com", eventId := some "o9" }] ∧
    (handleAttendance envLive
        { Store.empty with
          openSessions :=
            [("a@x.com", RawSession.parsed
              { email := "a@x.com", startUtcMs := 1770019200000
                startBerlinISO := { y := 2026, m := 2, d := 2, h := 9, mi := 0, s := 0, offMin := 60 }
                autoCloseAtUtcMs := 1770062400000, personioPeriodId := "shadow-period"
                openedEventId := "e1", updatedAt := "x" })]
          dueIndex := [("a@x.com", 1770062400000)] }
        { id := "o9", clockingType := some ClockingType.outDir
          email := some "a@x.com", stampUtc := some 1770049800000 }).history.head? =
      some { email := "a@x.com"
             start := { y := 2026, m := 2, d := 2, h := 9, mi := 0, s := 0, offMin := 60 }
             stop := { y := 2026, m := 2, d := 2, h := 17, mi := 30, s := 0, offMin := 60 }
             reason := "RECOVER_FROM_SHADOW", periodId := "p0" } := by
  constructor
  · decide
  · decide

/-! ## Claim C4 — cross-midnight split -/

@[simp] theorem periods_patchAttendanceEnd (st : Store) (id : String) (x : LocalISO) :
    (patchAttendanceEnd st id x).periods = patchPeriodList st.periods id x := rfl

@[simp] theorem openSessions_clearOpenSession (st : Store) (email : String) :
    (clearOpenSession st email).openSessions = removeKey st.openSessions email := rfl

@[simp] theorem nextPeriodId_recordAnomaly (st : Store) (a : Anomaly) :
    (recordAnomaly st a).nextPeriodId = st.nextPeriodId := rfl

@[simp] theorem nextPeriodId_pushHistory (st : Store) (e : HistoryEntry) :
    (pushHistory st e).nextPeriodId = st.nextPeriodId := rfl

@[simp] theorem nextPeriodId_patchAttendanceEnd (st : Store) (id : String) (x : LocalISO) :
    (patchAttendanceEnd st id x).nextPeriodId = st.nextPeriodId := rfl

@[simp] theorem nextPeriodId_clearOpenSession (st : Store) (email : String) :
    (clearOpenSession st email).nextPeriodId = st.nextPeriodId := rfl

@[simp] theorem nextPeriodId_setOpenSession (st : Store) (s : OpenSession) :
    (setOpenSession st s).nextPeriodId = st.nextPeriodId := rfl

@[simp] theorem periods_createAttendanceOpenEnded (st : Store) (e : String) (x : LocalISO) :
    (createAttendanceOpenEnded st e x).2.periods =
      ("p" ++ toString st.nextPeriodId, { employeeId := e, start := x, stop := none }) ::
        st.periods := rfl

@[simp] theorem fst_createAttendanceOpenEnded (st : Store) (e : String) (x : LocalISO) :
    (createAttendanceOpenEnded st e x).1 = "p" ++ toString st.nextPeriodId := rfl

/-- C4 (amended): a fresh `Out` whose instant falls on a different local
calendar day than the open session's start, processed live with a non-shadow
period id and a resolvable identity, splits the session: day 1 is closed at
`min(autoCloseAtUtcMs, berlinDayEndUtcMillis(start))` with history reason
`OUT_NEXT_DAY_SPLIT_DAY1`, exactly one `OUT_NEXT_DAY_SPLIT` anomaly is
recorded, the open session is cleared, and a day-2 period is created from
00:00:00+01:00 on the `Out`'s local day (local midnight under CET; one hour
after local midnight while CEST is in force) to the `Out` instant, history
reason `OUT_NEXT_DAY_SPLIT_DAY2`. -/
theorem c4_next_day_split (env : Env) (st : Store) (body : TMEvent)
    (email empId : String) (t : Nat) (openS : OpenSession) (p : Period)
    (hid : body.id ≠ "") (hseen : body.id ∉ st.evtSeen)
    (hct : body.clockingType = some ClockingType.outDir)
    (hem : body.email = some email)
    (hts : body.stampUtc = some t) (ht0 : t ≠ 0)
    (hp : (email, ClockingType.outDir, t) ∉ st.punchSeen)
    (hopen : getOpenSession st email = some openS)
    (hlive : env.SHADOW_MODE = false)
    (hsh : isShadowPeriodId openS.personioPeriodId = false)
    (hday : (toBerlinISO t).dayKey ≠ openS.startBerlinISO.dayKey)
    (hres : env.resolveEmployee email = some empId)
    (hne : openS.personioPeriodId ≠ "p" ++ toString st.nextPeriodId)
    (hper : List.lookup openS.personioPeriodId st.periods = some p)
    (hh : st.history.length ≤ 1998) (ha : st.anomalies.length ≤ 499) :
    (handleAttendance env st body).history =
      { email, start := { y := (toBerlinISO t).y, m := (toBerlinISO t).m
                          d := (toBerlinISO t).d, h := 0, mi := 0, s := 0, offMin := 60 }
        stop := toBerlinISO t, reason := "OUT_NEXT_DAY_SPLIT_DAY2"
        periodId := "p" ++ toString st.nextPeriodId } ::
      { email, start := openS.startBerlinISO
        stop := toBerlinISO (min openS.autoCloseAtUtcMs (berlinDayEndUtcMillis openS.startUtcMs))
        reason := "OUT_NEXT_DAY_SPLIT_DAY1", periodId := openS.personioPeriodId } ::
      st.history ∧
    (handleAttendance env st body).anomalies =
      { type := "OUT_NEXT_DAY_SPLIT", email := some email, eventId := some body.id } ::
        st.anomalies ∧
    getOpenSession (handleAttendance env st body) email = none ∧
    List.lookup openS.personioPeriodId (handleAttendance env st body).periods =
      some { p with
             stop := some (toBerlinISO
               (min openS.autoCloseAtUtcMs (berlinDayEndUtcMillis openS.startUtcMs))) } ∧
    List.lookup ("p" ++ toString st.nextPeriodId) (handleAttendance env st body).periods =
      some { employeeId := empId
             start := { y := (toBerlinISO t).y, m := (toBerlinISO t).m
                        d := (toBerlinISO t).d, h := 0, mi := 0, s := 0, offMin := 60 }
             stop := some (toBerlinISO t) } := by
  rw [handleAttendance_fresh_out env st body email t hid hseen hct hem hts ht0 hp]
  unfold handleOutEvent
  rw [show getOpenSession
      { st with evtSeen := body.id :: st.evtSeen
                punchSeen := (email, ClockingType.outDir, t) :: st.punchSeen } email = some openS
    from hopen]
  simp only [hlive, hsh, Bool.not_false, Bool.true_and, if_false, Bool.false_eq_true,
    if_pos hday, ne_eq]
  rw [hres]
  simp only [Bool.not_false, if_pos trivial, if_true]
  refine ⟨?_, ?_, ?_, ?_, ?_⟩
  · simp only [history_pushHistory, history_patchAttendanceEnd,
      history_createAttendanceOpenEnded, history_recordAnomaly, history_clearOpenSession,
      take2000_cons, take1999_cons, List.take_take, nextPeriodId_recordAnomaly,
      nextPeriodId_clearOpenSession, nextPeriodId_pushHistory,
      nextPeriodId_patchAttendanceEnd]
    norm_num
    exact hh
  · simp only [anomalies_pushHistory, anomalies_patchAttendanceEnd,
      anomalies_createAttendanceOpenEnded, anomalies_recordAnomaly,
      anomalies_clearOpenSession, take500_cons]
    rw [List.take_of_length_le ha]
  · simp [getOpenSession, lookup_removeKey_self]
  · simp only [periods_pushHistory, periods_patchAttendanceEnd,
      periods_createAttendanceOpenEnded, periods_recordAnomaly, periods_clearOpenSession,
      fst_createAttendanceOpenEnded, nextPeriodId_recordAnomaly,
      nextPeriodId_clearOpenSession, nextPeriodId_pushHistory,
      nextPeriodId_patchAttendanceEnd]
    rw [lookup_patchPeriodList_ne _ _ _ _ hne, lookup_cons_ne _ _ _ _ hne,
      lookup_patchPeriodList_self, hper]
    rfl
  · simp only [periods_pushHistory, periods_patchAttendanceEnd,
      periods_createAttendanceOpenEnded, periods_recordAnomaly, periods_clearOpenSession,
      fst_createAttendanceOpenEnded, nextPeriodId_recordAnomaly,
      nextPeriodId_clearOpenSession, nextPeriodId_pushHistory,
      nextPeriodId_patchAttendanceEnd]
    rw [lookup_patchPeriodList_self, lookup_cons_self]
    rfl

/-- Witness for C4, the spec's winter scenario: session from 22:00 Berlin on
2026-02-02, `Out` at 02:00 Berlin on 2026-02-03: day 1 closes at 23:59
Berlin, day 2 runs from 00:00 to 02:00 Berlin, one split anomaly. -/
theorem c4_next_day_split_witness :
    (handleAttendance envLive
        (handleAttendance envLive Store.empty
          { id := "e1", clockingType := some ClockingType.inDir
            email := some "a@x.com", stampUtc := some 1770066000000 })
        { id := "e2", clockingType := some ClockingType.outDir
          email := some "a@x.com", stampUtc := some 1770080400000 }).history =
      [{ email := "a@x.com"
         start := { y := 2026, m := 2, d := 3, h := 0, mi := 0, s := 0, offMin := 60 }
         stop := toBerlinISO 1770080400000, reason := "OUT_NEXT_DAY_SPLIT_DAY2"
         periodId := "p1" },
       { email := "a@x.com"
         start := { y := 2026, m := 2, d := 2, h := 22, mi := 0, s := 0, offMin := 60 }
         stop := toBerlinISO (min 1770073140000 (berlinDayEndUtcMillis 1770066000000))
         reason := "OUT_NEXT_DAY_SPLIT_DAY1", periodId := "p0" }] ∧
    (handleAttendance envLive
        (handleAttendance envLive Store.empty
          { id := "e1", clockingType := some ClockingType.inDir
            email := some "a@x.com", stampUtc := some 1770066000000 })
        { id := "e2", clockingType := some ClockingType.outDir
          email := some "a@x.com", stampUtc := some 1770080400000 }).anomalies =
      [{ type := "OUT_NEXT_DAY_SPLIT", email := some "a@x.com", eventId := some "e2" }] ∧
    getOpenSession
        (handleAttendance envLive
          (handleAttendance envLive Store.empty
            { id := "e1", clockingType := some ClockingType.inDir
              email := some "a@x.com", stampUtc := some 1770066000000 })
          { id := "e2", clockingType := some ClockingType.outDir
            email := some "a@x.com", stampUtc := some 1770080400000 }) "a@x.com" = none ∧
    List.lookup "p0"
        (handleAttendance envLive
          (handleAttendance envLive Store.empty
            { id := "e1", clockingType := some ClockingType.inDir
              email := some "a@x.com", stampUtc := some 1770066000000 })
          { id := "e2", clockingType := some ClockingType.outDir
            email := some "a@x.com", stampUtc := some 1770080400000 }).periods =
      some { employeeId := "E1"
             start := { y := 2026, m := 2, d := 2, h := 22, mi := 0, s := 0, offMin := 60 }
             stop := some (toBerlinISO (min 1770073140000 (berlinDayEndUtcMillis 1770066000000))) } ∧
    List.lookup "p1"
        (handleAttendance envLive
          (handleAttendance envLive Store.empty
            { id := "e1", clockingType := some ClockingType.inDir
              email := some "a@x.com", stampUtc := some 1770066000000 })
          { id := "e2", clockingType := some ClockingType.outDir
            email := some "a@x.com", stampUtc := some 1770080400000 }).periods =
      some { employeeId := "E1"
             start := { y := 2026, m := 2, d := 3, h := 0, mi := 0, s := 0, offMin := 60 }
             stop := some (toBerlinISO 1770080400000) } :=
  c4_next_day_split envLive
    (handleAttendance envLive Store.empty
      { id := "e1", clockingType := some ClockingType.inDir
        email := some "a@x.com", stampUtc := some 1770066000000 })
    { id := "e2", clockingType := some ClockingType.outDir
      email := some "a@x.com", stampUtc := some 1770080400000 }
    "a@x.com" "E1" 1770080400000
    { email := "a@x.com", startUtcMs := 1770066000000
      startBerlinISO := { y := 2026, m := 2, d := 2, h := 22, mi := 0, s := 0, offMin := 60 }
      autoCloseAtUtcMs := 1770073140000, personioPeriodId := "p0"
      openedEventId := "e1", updatedAt := "2026-02-02T08:00:01.000Z" }
    { employeeId := "E1"
      start := { y := 2026, m := 2, d := 2, h := 22, mi := 0, s := 0, offMin := 60 }
      stop := none }
    (by decide) (by decide) rfl rfl rfl (by decide) (by decide)
    (by decide) rfl rfl (by decide) rfl (by decide) (by decide)
    (by decide) (by decide)

/-- C4 counterexample: during summer time the day-2 period does *not* start
at local midnight.  A session from 22:00 CEST on 2026-07-01 closed by an
`Out` at 02:00 CEST on 2026-07-02 creates the day-2 period with start
`2026-07-02T00:00:00+01:00` — the instant 2026-07-01T23:00:00Z, which is
01:00 local CEST, one hour after the local midnight 2026-07-01T22:00:00Z. -/
theorem c4_counterexample :
    (handleAttendance envLive
        (handleAttendance envLive Store.empty
          { id := "s1", clockingType := some ClockingType.inDir
            email := some "a@x.com", stampUtc := some 1782936000000 })
        { id := "s2", clockingType := some ClockingType.outDir
          email := some "a@x.com", stampUtc := some 1782950400000 }).history.head? =
      some { email := "a@x.com"
             start := { y := 2026, m := 7, d := 2, h := 0, mi := 0, s := 0, offMin := 60 }
             stop := { y := 2026, m := 7, d := 2, h := 2, mi := 0, s := 0, offMin := 120 }
             reason := "OUT_NEXT_DAY_SPLIT_DAY2", periodId := "p1" } ∧
    LocalISO.utcMs
        { y := 2026, m := 7, d := 2, h := 0, mi := 0, s := 0, offMin := 60 } =
      1782946800000 ∧
    zonedLocalToUtcMs 2026 7 2 0 0 0 = 1782943200000 ∧
    (1782946800000 : Nat) ≠ 1782943200000 := by
  refine ⟨by decide, by decide, by decide, by decide⟩

/-! ## Claim C6 — late out after auto-close (`processor.ts` variant) -/

/-- Does the late-out recovery branch of `processor.ts`'s `handleOut` fire:
is there a `session:last:` record with reason `AUTO_CLOSE` whose end lies
strictly before the out instant, the out instant being at most the record's
start + 12h? -/
def lateOutRecoveryApplies (st : V1.Store) (email : String) (outMs : Nat) : Bool :=
  match List.lookup email st.last with
  | some l =>
      decide (l.endReason = "AUTO_CLOSE") &&
        (decide (l.endUtcMs < outMs) && decide (outMs ≤ l.startUtcMs + 12 * 3600 * 1000))
  | none => false

/-- C6 (amended): on an `Out` with no open session, if the last record for
the identity has reason `AUTO_CLOSE` and the out instant lies strictly after
that record's end and at most its start + 12h, the remote period's end is
patched to the out instant and the record is rewritten with the new end and
reason `OUT` (the code has no `OUT_LATE_AFTER_AUTO_CLOSE` reason), with no
`OUT_WITHOUT_IN` anomaly; otherwise an `OUT_WITHOUT_IN` anomaly is recorded
and processing stops. -/
theorem c6_late_out_after_autoclose (env : Env) (st : V1.Store)
    (eventId email : String) (outMs : Nat)
    (hopen : List.lookup email st.openSessions = none)
    (hlive : env.SHADOW_MODE = false) :
    (∀ lastS : V1.LastSession, List.lookup email st.last = some lastS →
       lastS.endReason = "AUTO_CLOSE" → lastS.endUtcMs < outMs →
       outMs ≤ lastS.startUtcMs + 12 * 3600 * 1000 →
       V1.handleOut env st eventId email outMs =
         V1.saveLast
           { st with periods :=
               patchPeriodList st.periods lastS.personioPeriodId (toBerlinISO outMs) }
           { lastS with
             endUtcMs := outMs
             endBerlinISO := toBerlinISO outMs
             endReason := "OUT"
             closedEventId := some eventId
             closedAtIso := env.nowIso }) ∧
    (lateOutRecoveryApplies st email outMs = false →
       V1.handleOut env st eventId email outMs =
         V1.pushAnomaly st
           { type := "OUT_WITHOUT_IN", email := some email, eventId := some eventId }) := by
  constructor
  · intro lastS h1 h2 h3 h4
    unfold V1.handleOut
    rw [hopen, h1]
    simp only []
    rw [if_pos h2, if_pos ⟨h3, h4⟩]
    simp only [hlive, Bool.not_false, if_pos trivial, if_true]
  · intro hrec
    unfold lateOutRecoveryApplies at hrec
    unfold V1.handleOut
    rw [hopen]
    cases hl : List.lookup email st.last with
    | none => rfl
    | some l =>
        rw [hl] at hrec
        simp only []
        by_cases hr : l.endReason = "AUTO_CLOSE"
        · rw [if_pos hr]
          have hw : ¬(l.endUtcMs < outMs ∧ outMs ≤ l.startUtcMs + 12 * 3600 * 1000) := by
            intro hcontra
            simp [hr, hcontra.1, hcontra.2] at hrec
          rw [if_neg hw]
        · rw [if_neg hr]

/-- The auto-closed last record used by the C6 witness and counterexample:
session 17:00→23:59 Berlin on 2026-02-02, reason `AUTO_CLOSE`. -/
def c6Last : V1.LastSession :=
  { email := "a@x.com", employeeId := "E1"
    startUtcMs := 1770048000000, endUtcMs := 1770073140000
    startBerlinISO := { y := 2026, m := 2, d := 2, h := 17, mi := 0, s := 0, offMin := 60 }
    endBerlinISO := { y := 2026, m := 2, d := 2, h := 23, mi := 59, s := 0, offMin := 60 }
    personioPeriodId := "p0", endReason := "AUTO_CLOSE"
    closedEventId := none, closedAtIso := "c" }

/-- Store for the C6 witness: no open session, the auto-closed last record,
and its remote period. -/
def c6Store : V1.Store :=
  { openSessions := [], anomalies := [], dueIndex := []
    last := [("a@x.com", c6Last)]
    periods := [("p0",
      { employeeId := "E1"
        start := { y := 2026, m := 2, d := 2, h := 17, mi := 0, s := 0, offMin := 60 }
        stop := some { y := 2026, m := 2, d := 2, h := 23, mi := 59, s := 0, offMin := 60 } })] }

/-- Store with neither an open session nor a last record. -/
def c6StoreBare : V1.Store :=
  { openSessions := [], last := [], anomalies := [], dueIndex := [], periods := [] }

/-- Witness for C6: the auto-closed session is corrected by an `Out` at
00:30 Berlin (within start + 12h); with no last record the same `Out`
raises `OUT_WITHOUT_IN`. -/
theorem c6_late_out_after_autoclose_witness :
    V1.handleOut envLive c6Store "eX" "a@x.com" 1770075000000 =
      V1.saveLast
        { c6Store with periods :=
            patchPeriodList c6Store.periods c6Last.personioPeriodId (toBerlinISO 1770075000000) }
        { c6Last with
          endUtcMs := 1770075000000
          endBerlinISO := toBerlinISO 1770075000000
          endReason := "OUT"
          closedEventId := some "eX"
          closedAtIso := envLive.nowIso } ∧
    V1.handleOut envLive c6StoreBare "eY" "b@y.com" 1770075000000 =
      V1.pushAnomaly c6StoreBare
        { type := "OUT_WITHOUT_IN", email := some "b@y.com", eventId := some "eY" } :=
  ⟨(c6_late_out_after_autoclose envLive c6Store "eX" "a@x.com" 1770075000000 rfl rfl).1
      c6Last rfl rfl (by decide) (by decide),
   (c6_late_out_after_autoclose envLive c6StoreBare "eY" "b@y.com" 1770075000000 rfl rfl).2 rfl⟩

/-- C6 counterexample: in the recovery case the code rewrites the history
record's reason to `OUT`, not to an `OUT_LATE_AFTER_AUTO_CLOSE` marker (no
such reason exists anywhere in the code), refuting the claim's "the history
entry's reason is updated to OutLateAfterAutoClose". -/
theorem c6_counterexample :
    List.lookup "a@x.com"
        (V1.handleOut envLive c6Store "eX" "a@x.com" 1770075000000).last =
      some { email := "a@x.com", employeeId := "E1"
             startUtcMs := 1770048000000, endUtcMs := 1770075000000
             startBerlinISO := { y := 2026, m := 2, d := 2, h := 17, mi := 0, s := 0, offMin := 60 }
             endBerlinISO := { y := 2026, m := 2, d := 3, h := 0, mi := 30, s := 0, offMin := 60 }
             personioPeriodId := "p0", endReason := "OUT"
             closedEventId := some "eX", closedAtIso := "2026-02-02T08:00:01.000Z" } ∧
    ("OUT" : String) ≠ "OUT_LATE_AFTER_AUTO_CLOSE" := by
  constructor
  · decide
  · decide

/-! ## Claim C8 — session/due-index coupling invariant -/

/-- A session-store operation: `setOpenSession` or `clearOpenSession`. -/
inductive SessionOp where
  | set (s : OpenSession)
  | clear (email : String)

/-- Apply one session-store operation. -/
def applySessionOp (st : Store) (op : SessionOp) : Store :=
  match op with
  | SessionOp.set s => setOpenSession st s
  | SessionOp.clear e => clearOpenSession st e

/-- The coupling between one identity's stored raw session value and its
due-index entry: present and parsable with the indexed score equal to the
session's deadline, or absent on both sides. -/
def invAt : Option RawSession → Option Nat → Prop
  | some (RawSession.parsed s), d => d = some s.autoCloseAtUtcMs
  | some (RawSession.corrupt _), _ => False
  | none, d => d = none

/-- An identity appears in the due-time index iff it has an open-session
record, and the indexed score equals that session's deadline. -/
def SessionIndexInv (st : Store) : Prop :=
  ∀ email : String,
    invAt (List.lookup email st.openSessions) (List.lookup email st.dueIndex)

theorem sessionIndexInv_set (st : Store) (s : OpenSession)
    (h : SessionIndexInv st) : SessionIndexInv (setOpenSession st s) := by
  intro email
  by_cases he : email = s.email
  · rw [he]
    show invAt
      (List.lookup s.email ((s.email, RawSession.parsed s) :: removeKey st.openSessions s.email))
      (List.lookup s.email ((s.email, s.autoCloseAtUtcMs) :: removeKey st.dueIndex s.email))
    rw [lookup_cons_self, lookup_cons_self]
    rfl
  · show invAt (List.lookup email ((s.email, RawSession.parsed s) :: removeKey st.openSessions s.email))
      (List.lookup email ((s.email, s.autoCloseAtUtcMs) :: removeKey st.dueIndex s.email))
    rw [lookup_cons_ne _ _ _ _ he, lookup_cons_ne _ _ _ _ he,
      lookup_removeKey_ne _ _ _ he, lookup_removeKey_ne _ _ _ he]
    exact h email

theorem sessionIndexInv_clear (st : Store) (e : String)
    (h : SessionIndexInv st) : SessionIndexInv (clearOpenSession st e) := by
  intro email
  show invAt (List.lookup email (removeKey st.openSessions e))
    (List.lookup email (removeKey st.dueIndex e))
  by_cases he : email = e
  · subst he
    rw [lookup_removeKey_self, lookup_removeKey_self]
    rfl
  · rw [lookup_removeKey_ne _ _ _ he, lookup_removeKey_ne _ _ _ he]
    exact h email

/-- C8: `setOpenSession` writes the record and the index entry together and
`clearOpenSession` deletes both, so after any sequence of these operations
from a state satisfying the coupling invariant — in particular from the
empty store — an identity appears in the due-time index iff it has an
open-session record, with the indexed score equal to that session's
`autoCloseAtUtcMs`. -/
theorem c8_index_invariant (ops : List SessionOp) (st : Store)
    (h : SessionIndexInv st) :
    SessionIndexInv (ops.foldl applySessionOp st) := by
  induction ops generalizing st with
  | nil => exact h
  | cons op rest ih =>
      cases op with
      | set s => exact ih (setOpenSession st s) (sessionIndexInv_set st s h)
      | clear e => exact ih (clearOpenSession st e) (sessionIndexInv_clear st e h)

/-- Witness for C8: a set/clear/set sequence from the empty store. -/
theorem c8_index_invariant_witness :
    SessionIndexInv
      (List.foldl applySessionOp Store.empty
        [SessionOp.set
          { email := "a@x.com", startUtcMs := 1770019200000
            startBerlinISO := { y := 2026, m := 2, d := 2, h := 9, mi := 0, s := 0, offMin := 60 }
            autoCloseAtUtcMs := 1770062400000, personioPeriodId := "p0"
            openedEventId := "e1", updatedAt := "t" },
         SessionOp.clear "b@y.com",
         SessionOp.set
          { email := "b@y.com", startUtcMs := 1770019260000
            startBerlinISO := { y := 2026, m := 2, d := 2, h := 9, mi := 1, s := 0, offMin := 60 }
            autoCloseAtUtcMs := 1770062460000, personioPeriodId := "p1"
            openedEventId := "e2", updatedAt := "t" }]) :=
  c8_index_invariant _ Store.empty (fun _ => rfl)

/-! ## Claim C7 — sweep idempotence -/

theorem autoCloseStep_fst_dueIndex (env : Env) (acc : Store × Nat) (email : String) :
    (autoCloseStep env acc email).1.dueIndex = removeKey acc.1.dueIndex email := by
  unfold autoCloseStep
  cases h : getOpenSession acc.1 email with
  | none => rfl
  | some openS => cases hSH : env.SHADOW_MODE <;> simp [hSH]

theorem autoCloseStep_fst_anomalies (env : Env) (acc : Store × Nat) (email : String) :
    (autoCloseStep env acc email).1.anomalies = acc.1.anomalies := by
  unfold autoCloseStep
  cases h : getOpenSession acc.1 email with
  | none => rfl
  | some openS => cases hSH : env.SHADOW_MODE <;> simp [hSH]

theorem autoCloseStep_snd (env : Env) (acc : Store × Nat) (email : String) :
    (autoCloseStep env acc email).2 =
      acc.2 + (if (getOpenSession acc.1 email).isSome then 1 else 0) := by
  unfold autoCloseStep
  cases h : getOpenSession acc.1 email <;> simp [h]

theorem getOpenSession_autoCloseStep_ne (env : Env) (acc : Store × Nat)
    (email e2 : String) (h : e2 ≠ email) :
    getOpenSession (autoCloseStep env acc email).1 e2 = getOpenSession acc.1 e2 := by
  unfold autoCloseStep
  cases hx : getOpenSession acc.1 email with
  | none => exact getOpenSession_clearOpenSession_ne _ _ _ h
  | some openS =>
      cases hSH : env.SHADOW_MODE <;>
        simp [hSH, getOpenSession_clearOpenSession_ne _ _ _ h]

theorem filter_removeKey (d : List (String × Nat)) (e : String) (rest : List String) :
    (removeKey d e).filter (fun x => x.1 ∉ rest) = d.filter (fun x => x.1 ∉ e :: rest) := by
  unfold removeKey
  rw [List.filter_filter]
  apply List.filter_congr
  intro x _
  by_cases h1 : x.1 = e <;> by_cases h2 : x.1 ∈ rest <;> simp [h1, h2]

theorem lookup_filter_notMem (d : List (String × Nat)) (l : List String) (k : String)
    (hk : k ∈ l) :
    List.lookup k (d.filter (fun x => x.1 ∉ l)) = none := by
  induction d with
  | nil => rfl
  | cons a rest ih =>
      obtain ⟨a1, a2⟩ := a
      rw [List.filter_cons]
      by_cases h : a1 ∈ l
      · rw [if_neg (by simp [h])]
        exact ih
      · rw [if_pos (by simp [h])]
        have : k ≠ a1 := fun hka => h (hka ▸ hk)
        rw [lookup_cons_ne _ _ _ _ this]
        exact ih

/-- Behaviour of the sweep loop over a duplicate-free batch of identities:
the due-index entries of exactly the batch are cleared, anomalies are
untouched, and the closed counter increases by the number of batch members
whose session record is present. -/
theorem sweepLoop_spec (env : Env) :
    ∀ (l : List String), l.Nodup → ∀ (acc : Store × Nat),
      (List.foldl (autoCloseStep env) acc l).1.dueIndex =
        acc.1.dueIndex.filter (fun x => x.1 ∉ l) ∧
      (List.foldl (autoCloseStep env) acc l).1.anomalies = acc.1.anomalies ∧
      (List.foldl (autoCloseStep env) acc l).2 =
        acc.2 + l.countP (fun e => (getOpenSession acc.1 e).isSome) := by
  intro l
  induction l with
  | nil =>
      intro _ acc
      refine ⟨?_, rfl, by simp⟩
      simp
  | cons e rest ih =>
      intro hnd acc
      have hne : e ∉ rest := (List.nodup_cons.mp hnd).1
      have hnd2 : rest.Nodup := (List.nodup_cons.mp hnd).2
      rw [List.foldl_cons]
      obtain ⟨ih1, ih2, ih3⟩ := ih hnd2 (autoCloseStep env acc e)
      refine ⟨?_, ?_, ?_⟩
      · rw [ih1, autoCloseStep_fst_dueIndex, filter_removeKey]
      · rw [ih2, autoCloseStep_fst_anomalies]
      · rw [ih3, autoCloseStep_snd]
        have hcount : rest.countP (fun x => (getOpenSession (autoCloseStep env acc e).1 x).isSome) =
            rest.countP (fun x => (getOpenSession acc.1 x).isSome) := by
          apply List.countP_congr
          intro x hx
          have : x ≠ e := fun hxe => hne (hxe ▸ hx)
          rw [getOpenSession_autoCloseStep_ne env acc e x this]
        rw [hcount, List.countP_cons]
        cases hp : (getOpenSession acc.1 e).isSome <;> simp [hp] <;> omega

/-- C7: running the sweep twice in immediate succession with the same `now`
(when the due backlog fits in one batch of 50) closes each due session at
most once: the first run's closed count equals the number of due identities
whose session record is present (an orphaned due-index entry is cleared, is
not counted and records no anomaly), every swept identity leaves the index,
and the second run changes nothing and reports a closed count of 0. -/
theorem c7_sweep_idempotent (env : Env) (st : Store) (now : Nat)
    (hnodup : (st.dueIndex.map Prod.fst).Nodup)
    (hlim : (st.dueIndex.filter (fun e => e.2 ≤ now)).length ≤ 50) :
    (runAutoClose env st now).2 =
      (listDueAutoClose st now 50).countP (fun e => (getOpenSession st e).isSome) ∧
    (runAutoClose env st now).1.anomalies = st.anomalies ∧
    (∀ e, e ∈ listDueAutoClose st now 50 →
       List.lookup e (runAutoClose env st now).1.dueIndex = none) ∧
    runAutoClose env (runAutoClose env st now).1 now = ((runAutoClose env st now).1, 0) := by
  have hsort := List.perm_insertionSort
    (fun a b : String × Nat => a.2 ≤ b.2) (st.dueIndex.filter (fun e => e.2 ≤ now))
  have htake : ((st.dueIndex.filter (fun e => e.2 ≤ now)).insertionSort
      (fun a b => a.2 ≤ b.2)).take 50 =
      (st.dueIndex.filter (fun e => e.2 ≤ now)).insertionSort (fun a b => a.2 ≤ b.2) := by
    apply List.take_of_length_le
    rw [List.length_insertionSort]
    exact hlim
  have hdue : listDueAutoClose st now 50 =
      ((st.dueIndex.filter (fun e => e.2 ≤ now)).insertionSort
        (fun a b => a.2 ≤ b.2)).map (fun e => e.1) := by
    unfold listDueAutoClose
    rw [htake]
  have hnd1 : (listDueAutoClose st now 50).Nodup := by
    rw [hdue]
    have hperm := hsort.map (fun e : String × Nat => e.1)
    rw [List.Perm.nodup_iff hperm]
    have hsub : ((st.dueIndex.filter (fun e => e.2 ≤ now)).map (fun e => e.1)).Sublist
        (st.dueIndex.map (fun e => e.1)) :=
      (List.filter_sublist _).map _
    exact List.Nodup.sublist hsub hnodup
  have hcompl : ∀ a : String × Nat, a ∈ st.dueIndex → a.2 ≤ now →
      a.1 ∈ listDueAutoClose st now 50 := by
    intro a ha hale
    rw [hdue]
    apply List.mem_map_of_mem
    rw [List.Perm.mem_iff hsort]
    exact List.mem_filter.mpr ⟨ha, by simp [hale]⟩
  obtain ⟨hd, hanom, hcnt⟩ := sweepLoop_spec env (listDueAutoClose st now 50) hnd1 (st, 0)
  have hr1due : (runAutoClose env st now).1.dueIndex =
      st.dueIndex.filter (fun x => x.1 ∉ listDueAutoClose st now 50) := hd
  refine ⟨by simpa using hcnt, hanom, ?_, ?_⟩
  · intro e he
    rw [hr1due]
    exact lookup_filter_notMem _ _ _ he
  · have hlist2 : listDueAutoClose (runAutoClose env st now).1 now 50 = [] := by
      unfold listDueAutoClose
      rw [hr1due, List.filter_filter]
      have : st.dueIndex.filter
          (fun a => decide (a.2 ≤ now) && decide (a.1 ∉ listDueAutoClose st now 50)) = [] := by
        rw [List.filter_eq_nil_iff]
        intro a ha
        simp only [Bool.and_eq_true, decide_eq_true_eq, not_and]
        intro hale hnmem
        exact hnmem (hcompl a ha hale)
      rw [this]
      rfl
    show List.foldl (autoCloseStep env) ((runAutoClose env st now).1, 0)
        (listDueAutoClose (runAutoClose env st now).1 now 50) = _
    rw [hlist2]
    rfl

/-- Witness for C7: one due session present for `a@x.com` plus one orphaned
due-index entry for `b@y.com`; the first run closes 1, the second closes 0
and leaves the state unchanged. -/
theorem c7_sweep_idempotent_witness :
    (runAutoClose envLive
        { Store.empty with
          openSessions := [("a@x.com", RawSession.parsed
            { email := "a@x.com", startUtcMs := 100
              startBerlinISO := { y := 1970, m := 1, d := 1, h := 1, mi := 0, s := 0, offMin := 60 }
              autoCloseAtUtcMs := 1000, personioPeriodId := "p0"
              openedEventId := "e1", updatedAt := "t" })]
          dueIndex := [("a@x.com", 1000), ("b@y.com", 500)]
          periods := [("p0",
            { employeeId := "E1"
              start := { y := 1970, m := 1, d := 1, h := 1, mi := 0, s := 0, offMin := 60 }
              stop := none })] } 2000).2 =
      (listDueAutoClose
        { Store.empty with
          openSessions := [("a@x.com", RawSession.parsed
            { email := "a@x.com", startUtcMs := 100
              startBerlinISO := { y := 1970, m := 1, d := 1, h := 1, mi := 0, s := 0, offMin := 60 }
              autoCloseAtUtcMs := 1000, personioPeriodId := "p0"
              openedEventId := "e1", updatedAt := "t" })]
          dueIndex := [("a@x.com", 1000), ("b@y.com", 500)]
          periods := [("p0",
            { employeeId := "E1"
              start := { y := 1970, m := 1, d := 1, h := 1, mi := 0, s := 0, offMin := 60 }
              stop := none })] } 2000 50).countP
        (fun e => (getOpenSession
          { Store.empty with
            openSessions := [("a@x.com", RawSession.parsed
              { email := "a@x.com", startUtcMs := 100
                startBerlinISO := { y := 1970, m := 1, d := 1, h := 1, mi := 0, s := 0, offMin := 60 }
                autoCloseAtUtcMs := 1000, personioPeriodId := "p0"
                openedEventId := "e1", updatedAt := "t" })]
            dueIndex := [("a@x.com", 1000), ("b@y.com", 500)]
            periods := [("p0",
              { employeeId := "E1"
                start := { y := 1970, m := 1, d := 1, h := 1, mi := 0, s := 0, offMin := 60 }
                stop := none })] } e).isSome) ∧
    (runAutoClose envLive
        { Store.empty with
          openSessions := [("a@x.com", RawSession.parsed
            { email := "a@x.com", startUtcMs := 100
              startBerlinISO := { y := 1970, m := 1, d := 1, h := 1, mi := 0, s := 0, offMin := 60 }
              autoCloseAtUtcMs := 1000, personioPeriodId := "p0"
              openedEventId := "e1", updatedAt := "t" })]
          dueIndex := [("a@x.com", 1000), ("b@y.com", 500)]
          periods := [("p0",
            { employeeId := "E1"
              start := { y := 1970, m := 1, d := 1, h := 1, mi := 0, s := 0, offMin := 60 }
              stop := none })] } 2000).1.anomalies = [] ∧
    (∀ e, e ∈ listDueAutoClose
        { Store.empty with
          openSessions := [("a@x.com", RawSession.parsed
            { email := "a@x.com", startUtcMs := 100
              startBerlinISO := { y := 1970, m := 1, d := 1, h := 1, mi := 0, s := 0, offMin := 60 }
              autoCloseAtUtcMs := 1000, personioPeriodId := "p0"
              openedEventId := "e1", updatedAt := "t" })]
          dueIndex := [("a@x.com", 1000), ("b@y.com", 500)]
          periods := [("p0",
            { employeeId := "E1"
              start := { y := 1970, m := 1, d := 1, h := 1, mi := 0, s := 0, offMin := 60 }
              stop := none })] } 2000 50 →
       List.lookup e (runAutoClose envLive
        { Store.empty with
          openSessions := [("a@x.com", RawSession.parsed
            { email := "a@x.com", startUtcMs := 100
              startBerlinISO := { y := 1970, m := 1, d := 1, h := 1, mi := 0, s := 0, offMin := 60 }
              autoCloseAtUtcMs := 1000, personioPeriodId := "p0"
              openedEventId := "e1", updatedAt := "t" })]
          dueIndex := [("a@x.com", 1000), ("b@y.com", 500)]
          periods := [("p0",
            { employeeId := "E1"
              start := { y := 1970, m := 1, d := 1, h := 1, mi := 0, s := 0, offMin := 60 }
              stop := none })] } 2000).1.dueIndex = none) ∧
    runAutoClose envLive
      (runAutoClose envLive
        { Store.empty with
          openSessions := [("a@x.com", RawSession.parsed
            { email := "a@x.com", startUtcMs := 100
              startBerlinISO := { y := 1970, m := 1, d := 1, h := 1, mi := 0, s := 0, offMin := 60 }
              autoCloseAtUtcMs := 1000, personioPeriodId := "p0"
              openedEventId := "e1", updatedAt := "t" })]
          dueIndex := [("a@x.com", 1000), ("b@y.com", 500)]
          periods := [("p0",
            { employeeId := "E1"
              start := { y := 1970, m := 1, d := 1, h := 1, mi := 0, s := 0, offMin := 60 }
              stop := none })] } 2000).1 2000 =
      ((runAutoClose envLive
        { Store.empty with
          openSessions := [("a@x.com", RawSession.parsed
            { email := "a@x.com", startUtcMs := 100
              startBerlinISO := { y := 1970, m := 1, d := 1, h := 1, mi := 0, s := 0, offMin := 60 }
              autoCloseAtUtcMs := 1000, personioPeriodId := "p0"
              openedEventId := "e1", updatedAt := "t" })]
          dueIndex := [("a@x.com", 1000), ("b@y.com", 500)]
          periods := [("p0",
            { employeeId := "E1"
              start := { y := 1970, m := 1, d := 1, h := 1, mi := 0, s := 0, offMin := 60 }
              stop := none })] } 2000).1, 0) :=
  c7_sweep_idempotent envLive
    { Store.empty with
      openSessions := [("a@x.com", RawSession.parsed
        { email := "a@x.com", startUtcMs := 100
          startBerlinISO := { y := 1970, m := 1, d := 1, h := 1, mi := 0, s := 0, offMin := 60 }
          autoCloseAtUtcMs := 1000, personioPeriodId := "p0"
          openedEventId := "e1", updatedAt := "t" })]
      dueIndex := [("a@x.com", 1000), ("b@y.com", 500)]
      periods := [("p0",
        { employeeId := "E1"
          start := { y := 1970, m := 1, d := 1, h := 1, mi := 0, s := 0, offMin := 60 }
          stop := none })] } 2000
    (by decide) (by decide)

end TMX
